import Mathlib

/-! AudioVideoRecorder: a shallow embedding of the capture-pipeline orchestrator.

The DirectShow framework is a black box for the recorder.  Every framework call the
recorder makes returns a status code chosen by the framework, so the embedding takes
those answers as data (`Framework`) and computes what the recorder does with them: the
sequence of framework calls it issues (`World.trace`), the filters it leaves in the
graph (`World.graph`) and how `record` ends (`RecordOutcome`).

Source files: `src/AudioVideoRecorder.h`, `src/AudioVideoRecorder.cpp`.
-/

namespace AudioVideoRecorder

/-! ## Status codes (Windows SDK values) -/

/-- HRESULT is a signed 32-bit status code; only its sign and a few named values matter. -/
abbrev HRESULT := Int

/-- Value of `S_OK` in winerror.h. -/
abbrev S_OK : HRESULT := 0

/-- Value of `S_FALSE` in winerror.h. -/
abbrev S_FALSE : HRESULT := 1

/-- Value of `E_ABORT` in winerror.h: 0x80004004 as a signed 32-bit number. -/
abbrev E_ABORT : HRESULT := -2147467260

/-- Value of `E_FAIL` in winerror.h: 0x80004005 as a signed 32-bit number. -/
abbrev E_FAIL : HRESULT := -2147467259

/-- Value of `VFW_E_NOT_FOUND` in vfwmsgs.h: 0x80040216 as a signed 32-bit number. -/
abbrev VFW_E_NOT_FOUND : HRESULT := -2147220970

/-- The winerror.h test `FAILED(hr)`, which is `hr < 0`. -/
def FAILED (hr : HRESULT) : Bool := decide (hr < 0)

/-- The winerror.h test `SUCCEEDED(hr)`, which is `hr >= 0`. -/
def SUCCEEDED (hr : HRESULT) : Bool := decide (0 ≤ hr)

/-! ## Constants of `AudioVideoRecorder.h` -/

/-- Header line 16: `static const WORD RECORDING_START_COOKIE = 0xDEAD`. -/
abbrev RECORDING_START_COOKIE : Nat := 0xDEAD

/-- Header line 17: `static const WORD RECORDING_STOP_COOKIE = 0xBEEF`. -/
abbrev RECORDING_STOP_COOKIE : Nat := 0xBEEF

/-! ## Framework objects -/

/-- The two device categories the recorder asks for
(`CLSID_VideoInputDeviceCategory`, `CLSID_AudioInputDeviceCategory`). -/
inductive DeviceCategory where
  | video
  | audio
deriving DecidableEq, Repr

/-- The major media types handed to RenderStream and ControlStream. -/
inductive MediaType where
  | MEDIATYPE_Video
  | MEDIATYPE_Audio
deriving DecidableEq, Repr

/-- One entry of a device enumeration: the device it designates and the status that
`BindToObject` returns for it. -/
structure Moniker where
  device : Nat
  bindToObject : HRESULT
deriving DecidableEq, Repr

/-- The answers of the system device enumerator for one category: the status of creating
it, the status of `CreateClassEnumerator`, and the monikers that `Next` yields in order
(after the last one `Next` returns `S_FALSE`). -/
structure SystemDeviceEnum where
  coCreateInstance : HRESULT
  createClassEnumerator : HRESULT
  monikers : List Moniker
deriving DecidableEq, Repr

/-- A filter of the graph.  A capture filter is the `CComPtr<IBaseFilter>` filled in by
`getCaptureFilter`: `none` is the null pointer, `some d` the filter of device `d`. -/
inductive Filter where
  | aviMux
  | fileWriter
  | capture (category : DeviceCategory) (device : Option Nat)
deriving DecidableEq, Repr

/-- The interface identifiers the recorder passes to `QueryInterface`. -/
inductive IID where
  | IID_IConfigAviMux
  | IID_IConfigInterleaving
  | IID_IMediaEvent
  | IID_IMediaControl
deriving DecidableEq, Repr

/-- The enumeration `InterleavingMode` of strmif.h. -/
inductive InterleavingMode where
  | INTERLEAVE_NONE
  | INTERLEAVE_CAPTURE
  | INTERLEAVE_FULL
  | INTERLEAVE_NONE_BUFFERED
deriving DecidableEq, Repr

/-- What one `GetEvent` call leaves in `result`, `eventCode`, `parameter1` and
`parameter2`.  When the call fails the three locals hold whatever they held before. -/
structure Poll where
  result : HRESULT
  eventCode : Int
  parameter1 : Int
  parameter2 : Int
deriving DecidableEq, Repr

/-- The two lines the recorder may write to the console. -/
inductive ConsoleMessage where
  | noCameraAvailable
  | noMicrophoneAvailable
deriving DecidableEq, Repr

/-- A framework call issued by the recorder, with its arguments and the status the
framework answered.  For a call made through an interface pointer of the multiplexer,
`queriedAs` is the interface identifier that pointer was obtained with. -/
inductive Call where
  | SetOutputFileName (hr : HRESULT)
  | AddFilter (filter : Filter) (hr : HRESULT)
  | RenderStream (mediaType : MediaType) (source : Filter) (hr : HRESULT)
  | RemoveFilter (filter : Filter)
  | ControlStream (mediaType : MediaType) (source : Filter) (start stop : Int)
      (startCookie stopCookie : Nat) (hr : HRESULT)
  | MuxQueryInterface (iid : IID) (hr : HRESULT)
  | SetMasterStream (queriedAs : IID) (iStream : Int) (hr : HRESULT)
  | put_Mode (queriedAs : IID) (mode : InterleavingMode) (hr : HRESULT)
  | cout (message : ConsoleMessage)
  | GraphQueryInterface (iid : IID) (hr : HRESULT)
  | Run (hr : HRESULT)
  | GetEvent (poll : Poll)
  | FreeEventParams (eventCode parameter1 parameter2 : Int)
  | Stop
deriving DecidableEq, Repr

/-- The `std::runtime_error`s thrown by the recorder, one constructor per message. -/
inductive RuntimeError where
  | noCameraAndMicrophone
  | addFilterFailed (category : DeviceCategory) (hr : HRESULT)
  | renderStreamFailed (category : DeviceCategory) (hr : HRESULT)
  | controlStreamFailed (category : DeviceCategory) (hr : HRESULT)
  | setupCaptureGraphFailed (hr : HRESULT)
  | queryInterfaceFailed (iid : IID) (hr : HRESULT)
  | runFailed (hr : HRESULT)
deriving DecidableEq, Repr

/-- The answers of the framework to every call the recorder can make.  Calls made once
for each category are indexed by the category; `queryConfigAviMux` and
`queryConfigAviMuxAgain` answer the `QueryInterface` calls of lines 110 and 127; `events`
lists what the successive `GetEvent` calls return. -/
structure Framework where
  createCaptureGraphBuilder2 : HRESULT
  createFilterGraph : HRESULT
  setFiltergraph : HRESULT
  setOutputFileName : HRESULT
  deviceEnum : DeviceCategory → SystemDeviceEnum
  addFilter : DeviceCategory → HRESULT
  renderStream : DeviceCategory → HRESULT
  controlStream : DeviceCategory → HRESULT
  queryConfigAviMux : HRESULT
  setMasterStream : HRESULT
  queryConfigAviMuxAgain : HRESULT
  putMode : HRESULT
  queryMediaEvent : HRESULT
  queryMediaControl : HRESULT
  run : HRESULT
  events : List Poll

/-- The state the recorder acts on: the filters in the graph and the calls made so far. -/
structure World where
  graph : List Filter
  trace : List Call
deriving DecidableEq, Repr

/-- Record a call that does not change the set of filters. -/
def World.call (w : World) (c : Call) : World :=
  { w with trace := w.trace ++ [c] }

/-- Effect of `SetOutputFileName`: on success the AVI Mux and the File Writer are in the
graph. -/
def World.SetOutputFileName (w : World) (hr : HRESULT) : World :=
  { graph := if FAILED hr then w.graph else w.graph ++ [Filter.aviMux, Filter.fileWriter],
    trace := w.trace ++ [Call.SetOutputFileName hr] }

/-- Effect of `IGraphBuilder::AddFilter`: on success the filter joins the graph. -/
def World.AddFilter (w : World) (filter : Filter) (hr : HRESULT) : World :=
  { graph := if FAILED hr then w.graph else w.graph ++ [filter],
    trace := w.trace ++ [Call.AddFilter filter hr] }

/-- Effect of `IGraphBuilder::RemoveFilter`: the filter is no longer in the graph. -/
def World.RemoveFilter (w : World) (filter : Filter) : World :=
  { graph := w.graph.filter (fun f => f != filter),
    trace := w.trace ++ [Call.RemoveFilter filter] }

/-! ## `AudioVideoRecorder.cpp` -/

/-- Lines 6-24.  Returns the status and the enumerator left in `enumMoniker`. -/
def getEnumMoniker (e : SystemDeviceEnum) : HRESULT × List Moniker :=
  let result := e.coCreateInstance
  if FAILED result then (result, [])
  else
    let result := e.createClassEnumerator
    let result := if result = S_FALSE then VFW_E_NOT_FOUND else result
    (result, e.monikers)

/-- Lines 39-53: the `while(1)` loop over the enumerator. -/
def getCaptureFilterLoop : List Moniker → HRESULT × Option Nat
  | [] => (E_FAIL, none)
  | moniker :: rest =>
    let result := moniker.bindToObject
    if SUCCEEDED result then (result, some moniker.device)
    else getCaptureFilterLoop rest

/-- Lines 30-54.  Returns the status and the pointer left in `captureFilter`. -/
def getCaptureFilter (e : SystemDeviceEnum) : HRESULT × Option Nat :=
  let enumerated := getEnumMoniker e
  if FAILED enumerated.1 then (enumerated.1, none)
  else getCaptureFilterLoop enumerated.2

/-- Lines 173 and 222: `REFERENCE_TIME recordingStopTime = recordingDuration * 10000000`.
`recordingDuration` is a `DWORD` (32-bit unsigned) and `10000000` an `int`, so the product
is computed in 32-bit unsigned arithmetic and only then widened to the 64-bit
`REFERENCE_TIME`. -/
def recordingStopTime (recordingDuration : Nat) : Int :=
  Int.ofNat ((recordingDuration * 10000000) % 2 ^ 32)

/-- Lines 145-192. -/
def setupVideoCaptureFilter (fw : Framework) (recordingDuration : Nat) (w : World) :
    World × Except RuntimeError Bool :=
  let located := getCaptureFilter (fw.deviceEnum DeviceCategory.video)
  let videoCaptureFilter := Filter.capture DeviceCategory.video located.2
  if FAILED located.1 then (w, Except.ok false)
  else
    let result := fw.addFilter DeviceCategory.video
    let w := w.AddFilter videoCaptureFilter result
    if FAILED result then
      (w, Except.error (RuntimeError.addFilterFailed DeviceCategory.video result))
    else
      let result := fw.renderStream DeviceCategory.video
      let w := w.call (Call.RenderStream MediaType.MEDIATYPE_Video videoCaptureFilter result)
      if FAILED result then
        (w.RemoveFilter videoCaptureFilter,
          Except.error (RuntimeError.renderStreamFailed DeviceCategory.video result))
      else
        let recordingStartTime : Int := 0
        let result := fw.controlStream DeviceCategory.video
        let w := w.call (Call.ControlStream MediaType.MEDIATYPE_Video videoCaptureFilter
          recordingStartTime (recordingStopTime recordingDuration)
          RECORDING_START_COOKIE RECORDING_STOP_COOKIE result)
        if FAILED result then
          (w.RemoveFilter videoCaptureFilter,
            Except.error (RuntimeError.controlStreamFailed DeviceCategory.video result))
        else (w, Except.ok true)

/-- Lines 194-241. -/
def setupAudioCaptureFilter (fw : Framework) (recordingDuration : Nat) (w : World) :
    World × Except RuntimeError Bool :=
  let located := getCaptureFilter (fw.deviceEnum DeviceCategory.audio)
  let audioCaptureFilter := Filter.capture DeviceCategory.audio located.2
  if FAILED located.1 then (w, Except.ok false)
  else
    let result := fw.addFilter DeviceCategory.audio
    let w := w.AddFilter audioCaptureFilter result
    if FAILED result then
      (w, Except.error (RuntimeError.addFilterFailed DeviceCategory.audio result))
    else
      let result := fw.renderStream DeviceCategory.audio
      let w := w.call (Call.RenderStream MediaType.MEDIATYPE_Audio audioCaptureFilter result)
      if FAILED result then
        (w.RemoveFilter audioCaptureFilter,
          Except.error (RuntimeError.renderStreamFailed DeviceCategory.audio result))
      else
        let recordingStartTime : Int := 0
        let result := fw.controlStream DeviceCategory.audio
        let w := w.call (Call.ControlStream MediaType.MEDIATYPE_Audio audioCaptureFilter
          recordingStartTime (recordingStopTime recordingDuration)
          RECORDING_START_COOKIE RECORDING_STOP_COOKIE result)
        if FAILED result then
          (w.RemoveFilter audioCaptureFilter,
            Except.error (RuntimeError.controlStreamFailed DeviceCategory.audio result))
        else (w, Except.ok true)

/-- Lines 106-140: the block run when both `cameraAvailable` and `microphoneAvailable`
hold.  Both `QueryInterface` calls pass `IID_IConfigAviMux` (lines 110 and 127); the
second one fills `configInterleaving`, through which `put_Mode` is then called. -/
def configureMux (fw : Framework) (w : World) : World × HRESULT :=
  let result := fw.queryConfigAviMux
  let w := w.call (Call.MuxQueryInterface IID.IID_IConfigAviMux result)
  if FAILED result then (w, result)
  else
    let configAviMux := IID.IID_IConfigAviMux
    let result := fw.setMasterStream
    let w := w.call (Call.SetMasterStream configAviMux 1 result)
    if FAILED result then (w, result)
    else
      let result := fw.queryConfigAviMuxAgain
      let w := w.call (Call.MuxQueryInterface IID.IID_IConfigAviMux result)
      if FAILED result then (w, result)
      else
        let configInterleaving := IID.IID_IConfigAviMux
        let result := fw.putMode
        let w := w.call
          (Call.put_Mode configInterleaving InterleavingMode.INTERLEAVE_CAPTURE result)
        if FAILED result then (w, result)
        else (w, S_OK)

/-- Lines 56-143.  The graph builder is created here, so the world starts empty. -/
def setupCaptureGraph (fw : Framework) (recordingDuration : Nat) :
    World × Except RuntimeError HRESULT :=
  let w : World := { graph := [], trace := [] }
  let result := fw.createCaptureGraphBuilder2
  if FAILED result then (w, Except.ok result)
  else
    let result := fw.createFilterGraph
    if FAILED result then (w, Except.ok result)
    else
      let result := fw.setFiltergraph
      if FAILED result then (w, Except.ok result)
      else
        let result := fw.setOutputFileName
        let w := w.SetOutputFileName result
        if FAILED result then (w, Except.ok result)
        else
          match setupVideoCaptureFilter fw recordingDuration w with
          | (w, Except.error e) => (w, Except.error e)
          | (w, Except.ok cameraAvailable) =>
            match setupAudioCaptureFilter fw recordingDuration w with
            | (w, Except.error e) => (w, Except.error e)
            | (w, Except.ok microphoneAvailable) =>
              if !cameraAvailable && !microphoneAvailable then
                (w, Except.error RuntimeError.noCameraAndMicrophone)
              else
                let w :=
                  if !cameraAvailable then w.call (Call.cout ConsoleMessage.noCameraAvailable)
                  else if !microphoneAvailable then
                    w.call (Call.cout ConsoleMessage.noMicrophoneAvailable)
                  else w
                if cameraAvailable && microphoneAvailable then
                  let configured := configureMux fw w
                  (configured.1, Except.ok configured.2)
                else (w, Except.ok S_OK)

/-- Lines 295-312: the `while(1)` loop of `record`, run against the successive answers of
`GetEvent`.  The flag tells whether the loop left through `break`; it is `false` when
the listed answers run out with the loop still polling. -/
def waitLoop : List Poll → World → World × Bool
  | [], w => (w, false)
  | poll :: rest, w =>
    let w := w.call (Call.GetEvent poll)
    let finishedRecording :=
      SUCCEEDED poll.result && decide (poll.parameter2 = Int.ofNat RECORDING_STOP_COOKIE)
    let w := w.call (Call.FreeEventParams poll.eventCode poll.parameter1 poll.parameter2)
    if finishedRecording then (w, true) else waitLoop rest w

/-- How a call of `record` ends. -/
inductive RecordOutcome where
  | returned
  | threw (e : RuntimeError)
  | stillWaiting
deriving DecidableEq, Repr

/-- Lines 257-315. -/
def record (fw : Framework) (duration : Nat) : World × RecordOutcome :=
  match setupCaptureGraph fw duration with
  | (w, Except.error e) => (w, RecordOutcome.threw e)
  | (w, Except.ok result) =>
    if FAILED result then (w, RecordOutcome.threw (RuntimeError.setupCaptureGraphFailed result))
    else
      let result := fw.queryMediaEvent
      let w := w.call (Call.GraphQueryInterface IID.IID_IMediaEvent result)
      if FAILED result then
        (w, RecordOutcome.threw (RuntimeError.queryInterfaceFailed IID.IID_IMediaEvent result))
      else
        let result := fw.queryMediaControl
        let w := w.call (Call.GraphQueryInterface IID.IID_IMediaControl result)
        if FAILED result then
          (w, RecordOutcome.threw
            (RuntimeError.queryInterfaceFailed IID.IID_IMediaControl result))
        else
          let result := fw.run
          let w := w.call (Call.Run result)
          if FAILED result then (w, RecordOutcome.threw (RuntimeError.runFailed result))
          else
            let waited := waitLoop fw.events w
            if waited.2 then (waited.1.call Call.Stop, RecordOutcome.returned)
            else (waited.1, RecordOutcome.stillWaiting)

/-! ## Vocabulary for the statements -/

/-- The filter held in `videoCaptureFilter` by `setupVideoCaptureFilter`. -/
def videoCaptureFilter (fw : Framework) : Filter :=
  Filter.capture DeviceCategory.video (getCaptureFilter (fw.deviceEnum DeviceCategory.video)).2

/-- The filter held in `audioCaptureFilter` by `setupAudioCaptureFilter`. -/
def audioCaptureFilter (fw : Framework) : Filter :=
  Filter.capture DeviceCategory.audio (getCaptureFilter (fw.deviceEnum DeviceCategory.audio)).2

/-- The `ControlStream` call issued for the video stream. -/
def videoControlStream (fw : Framework) (d : Nat) : Call :=
  Call.ControlStream MediaType.MEDIATYPE_Video (videoCaptureFilter fw) 0 (recordingStopTime d)
    RECORDING_START_COOKIE RECORDING_STOP_COOKIE (fw.controlStream DeviceCategory.video)

/-- The `ControlStream` call issued for the audio stream. -/
def audioControlStream (fw : Framework) (d : Nat) : Call :=
  Call.ControlStream MediaType.MEDIATYPE_Audio (audioCaptureFilter fw) 0 (recordingStopTime d)
    RECORDING_START_COOKIE RECORDING_STOP_COOKIE (fw.controlStream DeviceCategory.audio)

/-- Calls of the synchronisation block: the capability query on the multiplexer and the
two configuration calls. -/
def Call.isSync : Call → Bool
  | Call.MuxQueryInterface _ _ => true
  | Call.SetMasterStream _ _ _ => true
  | Call.put_Mode _ _ _ => true
  | _ => false

/-- Calls that run, poll or stop the pipeline. -/
def Call.isTransport : Call → Bool
  | Call.Run _ => true
  | Call.GetEvent _ => true
  | Call.FreeEventParams _ _ _ => true
  | Call.Stop => true
  | _ => false

/-- No call made so far runs, polls or stops the pipeline. -/
def World.quiet (w : World) : Prop := ∀ c ∈ w.trace, c.isTransport = false

/-- The four calls that create the graph builder, the graph, and the multiplexer with its
file sink all succeed, so that device location is reached (lines 59-89). -/
def graphPrepared (fw : Framework) : Bool :=
  !FAILED fw.createCaptureGraphBuilder2 && !FAILED fw.createFilterGraph &&
    !FAILED fw.setFiltergraph && !FAILED fw.setOutputFileName

/-- A device of the category is located and node-add, connect and schedule all succeed. -/
def binds (fw : Framework) (category : DeviceCategory) : Bool :=
  !FAILED (getCaptureFilter (fw.deviceEnum category)).1 && !FAILED (fw.addFilter category) &&
    !FAILED (fw.renderStream category) && !FAILED (fw.controlStream category)

/-- The world right after a successful `SetOutputFileName`. -/
def preparedWorld (fw : Framework) : World :=
  { graph := [Filter.aviMux, Filter.fileWriter],
    trace := [Call.SetOutputFileName fw.setOutputFileName] }

/-- The three calls of a successful video bind. -/
def videoBindCalls (fw : Framework) (d : Nat) : List Call :=
  [Call.AddFilter (videoCaptureFilter fw) (fw.addFilter DeviceCategory.video),
   Call.RenderStream MediaType.MEDIATYPE_Video (videoCaptureFilter fw)
     (fw.renderStream DeviceCategory.video),
   videoControlStream fw d]

/-- The three calls of a successful audio bind. -/
def audioBindCalls (fw : Framework) (d : Nat) : List Call :=
  [Call.AddFilter (audioCaptureFilter fw) (fw.addFilter DeviceCategory.audio),
   Call.RenderStream MediaType.MEDIATYPE_Audio (audioCaptureFilter fw)
     (fw.renderStream DeviceCategory.audio),
   audioControlStream fw d]

/-- The two calls the loop body makes for one poll: `GetEvent`, then `FreeEventParams`. -/
def pollCalls : List Poll → List Call
  | [] => []
  | poll :: rest =>
    Call.GetEvent poll ::
      Call.FreeEventParams poll.eventCode poll.parameter1 poll.parameter2 :: pollCalls rest

/-- Recognises `GetEvent` calls. -/
def Call.isGetEvent : Call → Bool
  | Call.GetEvent _ => true
  | _ => false

/-- Recognises `FreeEventParams` calls. -/
def Call.isFreeEventParams : Call → Bool
  | Call.FreeEventParams _ _ _ => true
  | _ => false

/-- Recognises `AddFilter` calls. -/
def Call.isAddFilter : Call → Bool
  | Call.AddFilter _ _ => true
  | _ => false

/-- Recognises `RenderStream` calls. -/
def Call.isRenderStream : Call → Bool
  | Call.RenderStream _ _ _ => true
  | _ => false

/-- Recognises `ControlStream` calls. -/
def Call.isControlStream : Call → Bool
  | Call.ControlStream _ _ _ _ _ _ _ => true
  | _ => false

/-- Calls made by `record` itself after `setupCaptureGraph` has returned. -/
def Call.isAfterSetup : Call → Bool
  | Call.GraphQueryInterface _ _ => true
  | Call.Run _ => true
  | Call.GetEvent _ => true
  | Call.FreeEventParams _ _ _ => true
  | Call.Stop => true
  | _ => false

/-- The three calls `record` makes between `setupCaptureGraph` and its wait loop. -/
def startCalls (fw : Framework) : List Call :=
  [Call.GraphQueryInterface IID.IID_IMediaEvent fw.queryMediaEvent,
   Call.GraphQueryInterface IID.IID_IMediaControl fw.queryMediaControl,
   Call.Run fw.run]

/-- The pipeline is started: the two interfaces of the graph are obtained and `Run`
succeeds (lines 270-287). -/
def pipelineStarts (fw : Framework) : Bool :=
  !FAILED fw.queryMediaEvent && !FAILED fw.queryMediaControl && !FAILED fw.run

/-- A put_Mode call that reaches the interleaving configuration of the multiplexer: one
made through a pointer obtained with `IID_IConfigInterleaving`. -/
def Call.isSetInterleaving : Call → Bool
  | Call.put_Mode IID.IID_IConfigInterleaving _ _ => true
  | _ => false

/-- Two answers of `GetEvent` agree when both succeed or both fail and, if they succeed,
carry the same second parameter.  Event codes and first parameters are left free. -/
def agree (p q : Poll) : Prop :=
  SUCCEEDED p.result = SUCCEEDED q.result ∧
    (SUCCEEDED p.result = true → p.parameter2 = q.parameter2)

/-- Locating a device fails: the enumerator cannot be created, the category is empty, or
no enumerated device can be bound. -/
def locateFails (e : SystemDeviceEnum) : Prop :=
  (FAILED e.coCreateInstance = true ∨ FAILED e.createClassEnumerator = true) ∨
    (e.createClassEnumerator = S_FALSE ∨ e.monikers = []) ∨
    (∀ m ∈ e.monikers, FAILED m.bindToObject = true)

/-! ## Sample machines -/

/-- A category with one device that binds. -/
def oneDevice (device : Nat) : SystemDeviceEnum :=
  { coCreateInstance := S_OK, createClassEnumerator := S_OK,
    monikers := [{ device := device, bindToObject := S_OK }] }

/-- An empty category: `CreateClassEnumerator` answers `S_FALSE`. -/
def emptyCategory : SystemDeviceEnum :=
  { coCreateInstance := S_OK, createClassEnumerator := S_FALSE, monikers := [] }

/-- A category whose first device cannot be bound and whose second device can. -/
def secondDeviceBinds : SystemDeviceEnum :=
  { coCreateInstance := S_OK, createClassEnumerator := S_OK,
    monikers := [{ device := 7, bindToObject := E_FAIL }, { device := 9, bindToObject := S_OK }] }

/-- An event queue: one empty poll, the start notification, the stop notification. -/
def sampleEvents : List Poll :=
  [{ result := E_ABORT, eventCode := 0, parameter1 := 0, parameter2 := 0 },
   { result := S_OK, eventCode := 17, parameter1 := 0, parameter2 := 0xDEAD },
   { result := S_OK, eventCode := 18, parameter1 := 0, parameter2 := 0xBEEF }]

/-- A framework in which every call succeeds, with the given device categories and
event queue. -/
def workingFramework (video audio : SystemDeviceEnum) (events : List Poll) : Framework :=
  { createCaptureGraphBuilder2 := S_OK, createFilterGraph := S_OK, setFiltergraph := S_OK,
    setOutputFileName := S_OK,
    deviceEnum := fun category =>
      match category with
      | DeviceCategory.video => video
      | DeviceCategory.audio => audio,
    addFilter := fun _ => S_OK, renderStream := fun _ => S_OK, controlStream := fun _ => S_OK,
    queryConfigAviMux := S_OK, setMasterStream := S_OK, queryConfigAviMuxAgain := S_OK,
    putMode := S_OK, queryMediaEvent := S_OK, queryMediaControl := S_OK, run := S_OK,
    events := events }

/-- A machine with a camera (device 0) and a microphone (device 0 of its category). -/
def cameraAndMicrophone : Framework :=
  workingFramework (oneDevice 0) (oneDevice 0) sampleEvents

/-- A machine with a camera and no microphone. -/
def cameraOnly : Framework :=
  workingFramework (oneDevice 0) emptyCategory sampleEvents

/-- A machine with neither a camera nor a microphone. -/
def noDevices : Framework :=
  workingFramework emptyCategory emptyCategory sampleEvents

/-- The world in which a bind operation is tried on its own. -/
def emptyWorld : World := { graph := [], trace := [] }

/-- A machine with both devices whose multiplexer rejects the interleaving call. -/
def putModeRejected : Framework :=
  { cameraAndMicrophone with putMode := E_FAIL }

/-- An event queue holding the start notification and then the stop notification. -/
def startThenStop : List Poll :=
  [{ result := S_OK, eventCode := 17, parameter1 := 0, parameter2 := 0xDEAD },
   { result := S_OK, eventCode := 18, parameter1 := 0, parameter2 := 0xBEEF }]

/-- A machine with both devices whose event queue is `startThenStop`. -/
def notifiedRecorder : Framework :=
  workingFramework (oneDevice 0) (oneDevice 0) startThenStop

/-- The queue `sampleEvents` with other event codes and first parameters, another failure
code and another stale second parameter in the failed poll, and another success code. -/
def relabelledEvents : List Poll :=
  [{ result := E_FAIL, eventCode := 1, parameter1 := 5, parameter2 := 0xBEEF },
   { result := S_OK, eventCode := 2, parameter1 := 6, parameter2 := 0xDEAD },
   { result := S_FALSE, eventCode := 3, parameter1 := 7, parameter2 := 0xBEEF }]

/-- A machine with both devices whose graph builder refuses to connect a capture filter. -/
def connectRejected : Framework :=
  { cameraAndMicrophone with renderStream := fun _ => E_FAIL }

/-- A machine with both devices whose graph builder refuses to schedule a stream. -/
def scheduleRejected : Framework :=
  { cameraAndMicrophone with controlStream := fun _ => E_FAIL }

/-! ## Facts about the embedding -/

/-- `E_FAIL` is a failure code. -/
theorem FAILED_E_FAIL : FAILED E_FAIL = true := by decide

/-- `VFW_E_NOT_FOUND` is a failure code. -/
theorem FAILED_VFW_E_NOT_FOUND : FAILED VFW_E_NOT_FOUND = true := by decide

/-- A status fails exactly when it does not succeed. -/
theorem FAILED_eq_not_SUCCEEDED (hr : HRESULT) : FAILED hr = !SUCCEEDED hr := by
  unfold FAILED SUCCEEDED
  by_cases h : hr < 0
  · simp [h]
  · simp [h, Int.not_lt.mp h]

/-- The enumeration loop skips the monikers that do not bind and stops at the first one that
does. -/
theorem getCaptureFilterLoop_first_bindable (failed : List Moniker) (m : Moniker)
    (later : List Moniker)
    (hfailed : ∀ x ∈ failed, SUCCEEDED x.bindToObject = false)
    (hm : SUCCEEDED m.bindToObject = true) :
    getCaptureFilterLoop (failed ++ m :: later) = (m.bindToObject, some m.device) := by
  induction failed with
  | nil => simp [getCaptureFilterLoop, hm]
  | cons x xs ih =>
    have hx : SUCCEEDED x.bindToObject = false := hfailed x (by simp)
    have hxs : ∀ y ∈ xs, SUCCEEDED y.bindToObject = false :=
      fun y hy => hfailed y (by simp [hy])
    simp [getCaptureFilterLoop, hx, ih hxs]

/-- When no moniker binds, the enumeration loop runs to the end and answers `E_FAIL`. -/
theorem getCaptureFilterLoop_none_bindable (ms : List Moniker)
    (hall : ∀ x ∈ ms, SUCCEEDED x.bindToObject = false) :
    getCaptureFilterLoop ms = (E_FAIL, none) := by
  induction ms with
  | nil => rfl
  | cons x xs ih =>
    have hx : SUCCEEDED x.bindToObject = false := hall x (by simp)
    have hxs : ∀ y ∈ xs, SUCCEEDED y.bindToObject = false :=
      fun y hy => hall y (by simp [hy])
    simp [getCaptureFilterLoop, hx, ih hxs]

/-- C7 (as amended): for an enumerator that was obtained and a device sequence `failed ++ m ::
later` in which `m` is the first device whose `BindToObject` succeeds, `getCaptureFilter`
returns `m`, whatever comes later.  With `failed = []` this is the device at position 0; a later
device is selected only when every device before it failed to bind. -/
theorem C7_first_bindable_device (e : SystemDeviceEnum) (failed : List Moniker) (m : Moniker)
    (later : List Moniker)
    (henum : FAILED (getEnumMoniker e).1 = false)
    (hseq : e.monikers = failed ++ m :: later)
    (hfailed : ∀ x ∈ failed, SUCCEEDED x.bindToObject = false)
    (hm : SUCCEEDED m.bindToObject = true) :
    getCaptureFilter e = (m.bindToObject, some m.device) := by
  have h2 : (getEnumMoniker e).2 = e.monikers := by
    unfold getEnumMoniker at henum ⊢
    by_cases hc : FAILED e.coCreateInstance = true
    · simp [hc] at henum
    · simp [hc]
  unfold getCaptureFilter
  simp only [henum, h2, hseq]
  simpa using getCaptureFilterLoop_first_bindable failed m later hfailed hm

/-- Each way of not finding a device makes `getCaptureFilter` answer a failure code. -/
theorem getCaptureFilter_fails_of (e : SystemDeviceEnum)
    (h : FAILED e.coCreateInstance = true ∨ FAILED e.createClassEnumerator = true ∨
      e.createClassEnumerator = S_FALSE ∨ ∀ m ∈ e.monikers, FAILED m.bindToObject = true) :
    FAILED (getCaptureFilter e).1 = true := by
  unfold getCaptureFilter getEnumMoniker
  by_cases h1 : FAILED e.coCreateInstance = true
  · simp [h1]
  · by_cases h2 : e.createClassEnumerator = S_FALSE
    · simp [h1, h2, FAILED_VFW_E_NOT_FOUND]
    · by_cases h3 : FAILED e.createClassEnumerator = true
      · simp [h1, h2, h3]
      · rcases h with h | h | h | h
        · exact absurd h h1
        · exact absurd h h3
        · exact absurd h h2
        · have hall : ∀ x ∈ e.monikers, SUCCEEDED x.bindToObject = false := by
            intro x hx
            have := h x hx
            rw [FAILED_eq_not_SUCCEEDED] at this
            simpa using this
          simp [h1, h2, h3, getCaptureFilterLoop_none_bindable e.monikers hall, FAILED_E_FAIL]

/-- Without a camera the video bind returns `false` and touches nothing. -/
theorem setupVideoCaptureFilter_unavailable (fw : Framework) (d : Nat) (w : World)
    (h : FAILED (getCaptureFilter (fw.deviceEnum DeviceCategory.video)).1 = true) :
    setupVideoCaptureFilter fw d w = (w, Except.ok false) := by
  simp [setupVideoCaptureFilter, h]

/-- Without a microphone the audio bind returns `false` and touches nothing. -/
theorem setupAudioCaptureFilter_unavailable (fw : Framework) (d : Nat) (w : World)
    (h : FAILED (getCaptureFilter (fw.deviceEnum DeviceCategory.audio)).1 = true) :
    setupAudioCaptureFilter fw d w = (w, Except.ok false) := by
  simp [setupAudioCaptureFilter, h]

/-- C6: for the video and for the audio bind alike, when a device is located and `AddFilter`
succeeds but `RenderStream` fails, or `RenderStream` succeeds but `ControlStream` fails, the
bind ends in a `runtime_error` (it never returns `true`), its last framework call is
`RemoveFilter` on the capture filter it had added, and the graph handed back to the caller does
not contain that filter. -/
theorem C6_rollback (fw : Framework) (d : Nat) (w : World) :
    (FAILED (getCaptureFilter (fw.deviceEnum DeviceCategory.video)).1 = false →
      FAILED (fw.addFilter DeviceCategory.video) = false →
      FAILED (fw.renderStream DeviceCategory.video) = true →
        (setupVideoCaptureFilter fw d w).2 = Except.error
          (RuntimeError.renderStreamFailed DeviceCategory.video
            (fw.renderStream DeviceCategory.video)) ∧
        (setupVideoCaptureFilter fw d w).1.trace = w.trace ++
          [Call.AddFilter (videoCaptureFilter fw) (fw.addFilter DeviceCategory.video),
           Call.RenderStream MediaType.MEDIATYPE_Video (videoCaptureFilter fw)
             (fw.renderStream DeviceCategory.video),
           Call.RemoveFilter (videoCaptureFilter fw)] ∧
        videoCaptureFilter fw ∉ (setupVideoCaptureFilter fw d w).1.graph) ∧
    (FAILED (getCaptureFilter (fw.deviceEnum DeviceCategory.video)).1 = false →
      FAILED (fw.addFilter DeviceCategory.video) = false →
      FAILED (fw.renderStream DeviceCategory.video) = false →
      FAILED (fw.controlStream DeviceCategory.video) = true →
        (setupVideoCaptureFilter fw d w).2 = Except.error
          (RuntimeError.controlStreamFailed DeviceCategory.video
            (fw.controlStream DeviceCategory.video)) ∧
        (setupVideoCaptureFilter fw d w).1.trace = w.trace ++
          [Call.AddFilter (videoCaptureFilter fw) (fw.addFilter DeviceCategory.video),
           Call.RenderStream MediaType.MEDIATYPE_Video (videoCaptureFilter fw)
             (fw.renderStream DeviceCategory.video),
           videoControlStream fw d,
           Call.RemoveFilter (videoCaptureFilter fw)] ∧
        videoCaptureFilter fw ∉ (setupVideoCaptureFilter fw d w).1.graph) ∧
    (FAILED (getCaptureFilter (fw.deviceEnum DeviceCategory.audio)).1 = false →
      FAILED (fw.addFilter DeviceCategory.audio) = false →
      FAILED (fw.renderStream DeviceCategory.audio) = true →
        (setupAudioCaptureFilter fw d w).2 = Except.error
          (RuntimeError.renderStreamFailed DeviceCategory.audio
            (fw.renderStream DeviceCategory.audio)) ∧
        (setupAudioCaptureFilter fw d w).1.trace = w.trace ++
          [Call.AddFilter (audioCaptureFilter fw) (fw.addFilter DeviceCategory.audio),
           Call.RenderStream MediaType.MEDIATYPE_Audio (audioCaptureFilter fw)
             (fw.renderStream DeviceCategory.audio),
           Call.RemoveFilter (audioCaptureFilter fw)] ∧
        audioCaptureFilter fw ∉ (setupAudioCaptureFilter fw d w).1.graph) ∧
    (FAILED (getCaptureFilter (fw.deviceEnum DeviceCategory.audio)).1 = false →
      FAILED (fw.addFilter DeviceCategory.audio) = false →
      FAILED (fw.renderStream DeviceCategory.audio) = false →
      FAILED (fw.controlStream DeviceCategory.audio) = true →
        (setupAudioCaptureFilter fw d w).2 = Except.error
          (RuntimeError.controlStreamFailed DeviceCategory.audio
            (fw.controlStream DeviceCategory.audio)) ∧
        (setupAudioCaptureFilter fw d w).1.trace = w.trace ++
          [Call.AddFilter (audioCaptureFilter fw) (fw.addFilter DeviceCategory.audio),
           Call.RenderStream MediaType.MEDIATYPE_Audio (audioCaptureFilter fw)
             (fw.renderStream DeviceCategory.audio),
           audioControlStream fw d,
           Call.RemoveFilter (audioCaptureFilter fw)] ∧
        audioCaptureFilter fw ∉ (setupAudioCaptureFilter fw d w).1.graph) := by
  refine ⟨?_, ?_, ?_, ?_⟩
  · intro hloc hadd hr
    simp [setupVideoCaptureFilter, hloc, hadd, hr, World.RemoveFilter, World.call,
      World.AddFilter, videoCaptureFilter]
  · intro hloc hadd hr hc
    simp [setupVideoCaptureFilter, hloc, hadd, hr, hc, World.RemoveFilter, World.call,
      World.AddFilter, videoCaptureFilter, videoControlStream]
  · intro hloc hadd hr
    simp [setupAudioCaptureFilter, hloc, hadd, hr, World.RemoveFilter, World.call,
      World.AddFilter, audioCaptureFilter]
  · intro hloc hadd hr hc
    simp [setupAudioCaptureFilter, hloc, hadd, hr, hc, World.RemoveFilter, World.call,
      World.AddFilter, audioCaptureFilter, audioControlStream]

/-- A call that is not a transport call keeps the trace free of transport calls. -/
theorem quiet_call (w : World) (c : Call) (hw : w.quiet) (hc : c.isTransport = false) :
    (w.call c).quiet := by
  intro x hx
  simp only [World.call, List.mem_append, List.mem_singleton] at hx
  rcases hx with hx | hx
  · exact hw x hx
  · rw [hx]; exact hc

/-- `AddFilter` keeps the trace free of transport calls. -/
theorem quiet_AddFilter (w : World) (f : Filter) (hr : HRESULT) (hw : w.quiet) :
    (w.AddFilter f hr).quiet := by
  intro x hx
  simp only [World.AddFilter, List.mem_append, List.mem_singleton] at hx
  rcases hx with hx | hx
  · exact hw x hx
  · rw [hx]; rfl

/-- `RemoveFilter` keeps the trace free of transport calls. -/
theorem quiet_RemoveFilter (w : World) (f : Filter) (hw : w.quiet) :
    (w.RemoveFilter f).quiet := by
  intro x hx
  simp only [World.RemoveFilter, List.mem_append, List.mem_singleton] at hx
  rcases hx with hx | hx
  · exact hw x hx
  · rw [hx]; rfl

/-- `SetOutputFileName` keeps the trace free of transport calls. -/
theorem quiet_SetOutputFileName (w : World) (hr : HRESULT) (hw : w.quiet) :
    (w.SetOutputFileName hr).quiet := by
  intro x hx
  simp only [World.SetOutputFileName, List.mem_append, List.mem_singleton] at hx
  rcases hx with hx | hx
  · exact hw x hx
  · rw [hx]; rfl

/-- The video bind never runs, polls or stops the pipeline. -/
theorem setupVideoCaptureFilter_quiet (fw : Framework) (d : Nat) (w : World) (hw : w.quiet) :
    (setupVideoCaptureFilter fw d w).1.quiet := by
  unfold setupVideoCaptureFilter
  simp only
  split_ifs
  · exact hw
  · exact quiet_AddFilter _ _ _ hw
  · exact quiet_RemoveFilter _ _ (quiet_call _ _ (quiet_AddFilter _ _ _ hw) rfl)
  · exact quiet_RemoveFilter _ _
      (quiet_call _ _ (quiet_call _ _ (quiet_AddFilter _ _ _ hw) rfl) rfl)
  · exact quiet_call _ _ (quiet_call _ _ (quiet_AddFilter _ _ _ hw) rfl) rfl

/-- The audio bind never runs, polls or stops the pipeline. -/
theorem setupAudioCaptureFilter_quiet (fw : Framework) (d : Nat) (w : World) (hw : w.quiet) :
    (setupAudioCaptureFilter fw d w).1.quiet := by
  unfold setupAudioCaptureFilter
  simp only
  split_ifs
  · exact hw
  · exact quiet_AddFilter _ _ _ hw
  · exact quiet_RemoveFilter _ _ (quiet_call _ _ (quiet_AddFilter _ _ _ hw) rfl)
  · exact quiet_RemoveFilter _ _
      (quiet_call _ _ (quiet_call _ _ (quiet_AddFilter _ _ _ hw) rfl) rfl)
  · exact quiet_call _ _ (quiet_call _ _ (quiet_AddFilter _ _ _ hw) rfl) rfl

/-- The synchronisation block never runs, polls or stops the pipeline. -/
theorem configureMux_quiet (fw : Framework) (w : World) (hw : w.quiet) :
    (configureMux fw w).1.quiet := by
  unfold configureMux
  simp only
  split_ifs
  · exact quiet_call _ _ hw rfl
  · exact quiet_call _ _ (quiet_call _ _ hw rfl) rfl
  · exact quiet_call _ _ (quiet_call _ _ (quiet_call _ _ hw rfl) rfl) rfl
  · exact quiet_call _ _ (quiet_call _ _ (quiet_call _ _ (quiet_call _ _ hw rfl) rfl) rfl) rfl
  · exact quiet_call _ _ (quiet_call _ _ (quiet_call _ _ (quiet_call _ _ hw rfl) rfl) rfl) rfl

/-- Whatever the framework answers, `setupCaptureGraph` never runs, polls or stops the pipeline.
-/
theorem setupCaptureGraph_quiet (fw : Framework) (d : Nat) :
    (setupCaptureGraph fw d).1.quiet := by
  have h0 : World.quiet { graph := [], trace := [] } := by
    intro c hc
    simp at hc
  have h1 := quiet_SetOutputFileName _ fw.setOutputFileName h0
  have hv := setupVideoCaptureFilter_quiet fw d _ h1
  unfold setupCaptureGraph
  simp only
  split_ifs
  · exact h0
  · exact h0
  · exact h0
  · exact h1
  · rcases hvid : setupVideoCaptureFilter fw d
        (World.SetOutputFileName { graph := [], trace := [] } fw.setOutputFileName) with ⟨w1, r1⟩
    rw [hvid] at hv
    have ha := setupAudioCaptureFilter_quiet fw d w1 hv
    rcases r1 with e1 | cam
    · exact hv
    · dsimp only
      rcases haud : setupAudioCaptureFilter fw d w1 with ⟨w2, r2⟩
      rw [haud] at ha
      rcases r2 with e2 | mic
      · exact ha
      · dsimp only
        cases cam <;> cases mic
        · exact ha
        · exact quiet_call _ _ ha rfl
        · exact quiet_call _ _ ha rfl
        · exact configureMux_quiet fw _ ha

/-- A successful video bind: three calls, one more filter, result `true`. -/
theorem setupVideoCaptureFilter_bound (fw : Framework) (d : Nat) (w : World)
    (h : binds fw DeviceCategory.video = true) :
    setupVideoCaptureFilter fw d w =
      ({ graph := w.graph ++ [videoCaptureFilter fw],
         trace := w.trace ++ videoBindCalls fw d }, Except.ok true) := by
  simp only [binds, Bool.and_eq_true, Bool.not_eq_true', ] at h
  obtain ⟨⟨⟨h1, h2⟩, h3⟩, h4⟩ := h
  simp [setupVideoCaptureFilter, h1, h2, h3, h4, World.call, World.AddFilter,
    videoCaptureFilter, videoControlStream, videoBindCalls]

/-- A successful audio bind: three calls, one more filter, result `true`. -/
theorem setupAudioCaptureFilter_bound (fw : Framework) (d : Nat) (w : World)
    (h : binds fw DeviceCategory.audio = true) :
    setupAudioCaptureFilter fw d w =
      ({ graph := w.graph ++ [audioCaptureFilter fw],
         trace := w.trace ++ audioBindCalls fw d }, Except.ok true) := by
  simp only [binds, Bool.and_eq_true, Bool.not_eq_true', ] at h
  obtain ⟨⟨⟨h1, h2⟩, h3⟩, h4⟩ := h
  simp [setupAudioCaptureFilter, h1, h2, h3, h4, World.call, World.AddFilter,
    audioCaptureFilter, audioControlStream, audioBindCalls]

/-- Once the graph, the multiplexer and the file sink exist, `setupCaptureGraph` is its part
from line 91 on. -/
theorem setupCaptureGraph_prepared (fw : Framework) (d : Nat) (h : graphPrepared fw = true) :
    setupCaptureGraph fw d =
      match setupVideoCaptureFilter fw d (preparedWorld fw) with
      | (w, Except.error e) => (w, Except.error e)
      | (w, Except.ok cameraAvailable) =>
        match setupAudioCaptureFilter fw d w with
        | (w, Except.error e) => (w, Except.error e)
        | (w, Except.ok microphoneAvailable) =>
          if !cameraAvailable && !microphoneAvailable then
            (w, Except.error RuntimeError.noCameraAndMicrophone)
          else
            let w :=
              if !cameraAvailable then w.call (Call.cout ConsoleMessage.noCameraAvailable)
              else if !microphoneAvailable then
                w.call (Call.cout ConsoleMessage.noMicrophoneAvailable)
              else w
            if cameraAvailable && microphoneAvailable then
              let configured := configureMux fw w
              (configured.1, Except.ok configured.2)
            else (w, Except.ok S_OK) := by
  simp only [graphPrepared, Bool.and_eq_true, Bool.not_eq_true'] at h
  obtain ⟨⟨⟨h1, h2⟩, h3⟩, h4⟩ := h
  simp [setupCaptureGraph, h1, h2, h3, h4, World.SetOutputFileName, preparedWorld]

/-- With no camera and no microphone `setupCaptureGraph` throws right after the two lookups. -/
theorem setupCaptureGraph_none_available (fw : Framework) (d : Nat)
    (hprep : graphPrepared fw = true)
    (hv : FAILED (getCaptureFilter (fw.deviceEnum DeviceCategory.video)).1 = true)
    (ha : FAILED (getCaptureFilter (fw.deviceEnum DeviceCategory.audio)).1 = true) :
    setupCaptureGraph fw d =
      (preparedWorld fw, Except.error RuntimeError.noCameraAndMicrophone) := by
  rw [setupCaptureGraph_prepared fw d hprep, setupVideoCaptureFilter_unavailable fw d _ hv]
  simp [setupAudioCaptureFilter_unavailable fw d _ ha]

/-- With a camera and no microphone `setupCaptureGraph` binds the camera, reports the missing
microphone and returns `S_OK`. -/
theorem setupCaptureGraph_video_only (fw : Framework) (d : Nat)
    (hprep : graphPrepared fw = true)
    (hv : binds fw DeviceCategory.video = true)
    (ha : FAILED (getCaptureFilter (fw.deviceEnum DeviceCategory.audio)).1 = true) :
    setupCaptureGraph fw d =
      ({ graph := [Filter.aviMux, Filter.fileWriter, videoCaptureFilter fw],
         trace := Call.SetOutputFileName fw.setOutputFileName :: videoBindCalls fw d ++
           [Call.cout ConsoleMessage.noMicrophoneAvailable] }, Except.ok S_OK) := by
  rw [setupCaptureGraph_prepared fw d hprep, setupVideoCaptureFilter_bound fw d _ hv]
  simp [setupAudioCaptureFilter_unavailable fw d _ ha, preparedWorld, World.call]

/-- With a microphone and no camera `setupCaptureGraph` binds the microphone, reports the
missing camera and returns `S_OK`. -/
theorem setupCaptureGraph_audio_only (fw : Framework) (d : Nat)
    (hprep : graphPrepared fw = true)
    (hv : FAILED (getCaptureFilter (fw.deviceEnum DeviceCategory.video)).1 = true)
    (ha : binds fw DeviceCategory.audio = true) :
    setupCaptureGraph fw d =
      ({ graph := [Filter.aviMux, Filter.fileWriter, audioCaptureFilter fw],
         trace := Call.SetOutputFileName fw.setOutputFileName :: audioBindCalls fw d ++
           [Call.cout ConsoleMessage.noCameraAvailable] }, Except.ok S_OK) := by
  rw [setupCaptureGraph_prepared fw d hprep, setupVideoCaptureFilter_unavailable fw d _ hv]
  simp [setupAudioCaptureFilter_bound fw d _ ha, preparedWorld, World.call]

/-- With both devices bound `setupCaptureGraph` ends with the synchronisation block. -/
theorem setupCaptureGraph_both (fw : Framework) (d : Nat)
    (hprep : graphPrepared fw = true)
    (hv : binds fw DeviceCategory.video = true)
    (ha : binds fw DeviceCategory.audio = true) :
    setupCaptureGraph fw d =
      ((configureMux fw
          { graph := [Filter.aviMux, Filter.fileWriter, videoCaptureFilter fw,
              audioCaptureFilter fw],
            trace := Call.SetOutputFileName fw.setOutputFileName :: videoBindCalls fw d ++
              audioBindCalls fw d }).1,
        Except.ok (configureMux fw
          { graph := [Filter.aviMux, Filter.fileWriter, videoCaptureFilter fw,
              audioCaptureFilter fw],
            trace := Call.SetOutputFileName fw.setOutputFileName :: videoBindCalls fw d ++
              audioBindCalls fw d }).2) := by
  rw [setupCaptureGraph_prepared fw d hprep, setupVideoCaptureFilter_bound fw d _ hv]
  simp [setupAudioCaptureFilter_bound fw d _ ha, preparedWorld]

/-- The loop body issues one `GetEvent` per poll. -/
theorem countP_isGetEvent_pollCalls (polls : List Poll) :
    (pollCalls polls).countP Call.isGetEvent = polls.length := by
  induction polls with
  | nil => rfl
  | cons p ps ih => simp [pollCalls, Call.isGetEvent, ih]

/-- The loop body issues one `FreeEventParams` per poll. -/
theorem countP_isFreeEventParams_pollCalls (polls : List Poll) :
    (pollCalls polls).countP Call.isFreeEventParams = polls.length := by
  induction polls with
  | nil => rfl
  | cons p ps ih => simp [pollCalls, Call.isFreeEventParams, ih]

/-- The calls of the loop body belong to the part of `record` after the setup. -/
theorem pollCalls_isAfterSetup (polls : List Poll) :
    ∀ c ∈ pollCalls polls, c.isAfterSetup = true := by
  induction polls with
  | nil => intro c hc; simp [pollCalls] at hc
  | cons p ps ih =>
    intro c hc
    simp only [pollCalls, List.mem_cons] at hc
    rcases hc with hc | hc | hc
    · rw [hc]; rfl
    · rw [hc]; rfl
    · exact ih c hc

/-- The exit test of the loop is false for a failed poll and for an event whose second parameter
is not the stop cookie. -/
theorem exitTest_false (p : Poll)
    (h : SUCCEEDED p.result = false ∨ p.parameter2 ≠ 0xBEEF) :
    (SUCCEEDED p.result && decide (p.parameter2 = Int.ofNat RECORDING_STOP_COOKIE)) = false := by
  rcases h with h | h
  · rw [h]; rfl
  · have hd : decide (p.parameter2 = Int.ofNat RECORDING_STOP_COOKIE) = false :=
      decide_eq_false h
    rw [hd, Bool.and_false]

/-- The exit test of the loop is true for a dequeued event whose second parameter is the stop
cookie. -/
theorem exitTest_true (p : Poll)
    (h : SUCCEEDED p.result = true ∧ p.parameter2 = 0xBEEF) :
    (SUCCEEDED p.result && decide (p.parameter2 = Int.ofNat RECORDING_STOP_COOKIE)) = true := by
  have hd : decide (p.parameter2 = Int.ofNat RECORDING_STOP_COOKIE) = true :=
    decide_eq_true h.2
  rw [h.1, hd]; rfl

/-- On answers none of which passes the exit test the loop polls every one of them, releasing
each, and is still polling at the end. -/
theorem waitLoop_keeps_polling (waiting : List Poll) (w : World)
    (hwaiting : ∀ p ∈ waiting, SUCCEEDED p.result = false ∨ p.parameter2 ≠ 0xBEEF) :
    waitLoop waiting w =
      ({ graph := w.graph, trace := w.trace ++ pollCalls waiting }, false) := by
  induction waiting generalizing w with
  | nil => simp [waitLoop, pollCalls]
  | cons p ps ih =>
    have hp := exitTest_false p (hwaiting p (by simp))
    have hps : ∀ q ∈ ps, SUCCEEDED q.result = false ∨ q.parameter2 ≠ 0xBEEF :=
      fun q hq => hwaiting q (by simp [hq])
    rw [waitLoop]
    simp only [hp]
    rw [ih _ hps]
    simp [World.call, pollCalls]

/-- The loop polls through the answers that do not pass the exit test and leaves right after the
first one that does. -/
theorem waitLoop_exits_at_stop (waiting : List Poll) (stopEvent : Poll) (later : List Poll)
    (w : World)
    (hwaiting : ∀ p ∈ waiting, SUCCEEDED p.result = false ∨ p.parameter2 ≠ 0xBEEF)
    (hstop : SUCCEEDED stopEvent.result = true ∧ stopEvent.parameter2 = 0xBEEF) :
    waitLoop (waiting ++ stopEvent :: later) w =
      ({ graph := w.graph, trace := w.trace ++ pollCalls (waiting ++ [stopEvent]) }, true) := by
  induction waiting generalizing w with
  | nil =>
    have hs := exitTest_true stopEvent hstop
    simp only [List.nil_append]
    rw [waitLoop]
    simp only [hs]
    simp [World.call, pollCalls]
  | cons p ps ih =>
    have hp := exitTest_false p (hwaiting p (by simp))
    have hps : ∀ q ∈ ps, SUCCEEDED q.result = false ∨ q.parameter2 ≠ 0xBEEF :=
      fun q hq => hwaiting q (by simp [hq])
    simp only [List.cons_append]
    rw [waitLoop]
    simp only [hp]
    rw [ih _ hps]
    simp [World.call, pollCalls]

/-- The loop only ever adds the calls of its body, for some initial part of the answers. -/
theorem waitLoop_trace (polls : List Poll) (w : World) :
    ∃ taken, (waitLoop polls w).1.trace = w.trace ++ pollCalls taken := by
  induction polls generalizing w with
  | nil => exact ⟨[], by simp [waitLoop, pollCalls]⟩
  | cons p ps ih =>
    rw [waitLoop]
    by_cases hp : (SUCCEEDED p.result &&
        decide (p.parameter2 = Int.ofNat RECORDING_STOP_COOKIE)) = true
    · refine ⟨[p], ?_⟩
      simp only [hp]
      simp [World.call, pollCalls]
    · obtain ⟨taken, ht⟩ := ih
        ((w.call (Call.GetEvent p)).call
          (Call.FreeEventParams p.eventCode p.parameter1 p.parameter2))
      refine ⟨p :: taken, ?_⟩
      simp only [hp]
      simp only [Bool.false_eq_true, if_false]
      rw [ht]
      simp [World.call, pollCalls]

/-- An error thrown by `setupCaptureGraph` leaves `record` unchanged. -/
theorem record_of_setup_error (fw : Framework) (d : Nat) (w : World) (e : RuntimeError)
    (h : setupCaptureGraph fw d = (w, Except.error e)) :
    record fw d = (w, RecordOutcome.threw e) := by
  simp [record, h]

/-- A failure code returned by `setupCaptureGraph` makes `record` throw at line 268. -/
theorem record_of_setup_failed (fw : Framework) (d : Nat) (w : World) (hr : HRESULT)
    (h : setupCaptureGraph fw d = (w, Except.ok hr)) (hf : FAILED hr = true) :
    record fw d = (w, RecordOutcome.threw (RuntimeError.setupCaptureGraphFailed hr)) := by
  simp [record, h, hf]

/-- After a successful setup and start, `record` is its wait loop followed by `Stop`. -/
theorem record_of_setup_ok (fw : Framework) (d : Nat) (w : World) (hr : HRESULT)
    (h : setupCaptureGraph fw d = (w, Except.ok hr)) (hf : FAILED hr = false)
    (hstart : pipelineStarts fw = true) :
    record fw d =
      if (waitLoop fw.events { graph := w.graph, trace := w.trace ++ startCalls fw }).2 then
        ((waitLoop fw.events { graph := w.graph, trace := w.trace ++ startCalls fw }).1.call
          Call.Stop, RecordOutcome.returned)
      else
        ((waitLoop fw.events { graph := w.graph, trace := w.trace ++ startCalls fw }).1,
          RecordOutcome.stillWaiting) := by
  simp only [pipelineStarts, Bool.and_eq_true, Bool.not_eq_true'] at hstart
  obtain ⟨⟨h1, h2⟩, h3⟩ := hstart
  simp [record, h, hf, h1, h2, h3, World.call, startCalls]

/-- The calls of `record` are those of `setupCaptureGraph` followed by calls of its own. -/
theorem record_trace (fw : Framework) (d : Nat) :
    ∃ tail, (record fw d).1.trace = (setupCaptureGraph fw d).1.trace ++ tail ∧
      ∀ c ∈ tail, c.isAfterSetup = true := by
  rcases hs : setupCaptureGraph fw d with ⟨w, r⟩
  rcases r with e | hr
  · exact ⟨[], by simp [record, hs]⟩
  · unfold record
    rw [hs]
    simp only
    split_ifs with h0 h1 h2 h3 h4
    · exact ⟨[], by simp⟩
    · exact ⟨[Call.GraphQueryInterface IID.IID_IMediaEvent fw.queryMediaEvent],
        by simp [World.call], by simp [Call.isAfterSetup]⟩
    · exact ⟨[Call.GraphQueryInterface IID.IID_IMediaEvent fw.queryMediaEvent,
          Call.GraphQueryInterface IID.IID_IMediaControl fw.queryMediaControl],
        by simp [World.call], by simp [Call.isAfterSetup]⟩
    · exact ⟨startCalls fw, by simp [World.call, startCalls],
        by simp [Call.isAfterSetup, startCalls]⟩
    · obtain ⟨taken, ht⟩ := waitLoop_trace fw.events
        (((w.call (Call.GraphQueryInterface IID.IID_IMediaEvent fw.queryMediaEvent)).call
          (Call.GraphQueryInterface IID.IID_IMediaControl fw.queryMediaControl)).call
            (Call.Run fw.run))
      refine ⟨startCalls fw ++ pollCalls taken ++ [Call.Stop], ?_, ?_⟩
      · simp only [World.call] at ht ⊢
        rw [ht]
        simp [startCalls]
      · intro c hc
        simp only [List.mem_append, List.mem_singleton] at hc
        rcases hc with (hc | hc) | hc
        · simp only [startCalls, List.mem_cons, List.mem_singleton, List.not_mem_nil,
            or_false] at hc
          rcases hc with hc | hc | hc <;> rw [hc] <;> rfl
        · exact pollCalls_isAfterSetup taken c hc
        · rw [hc]; rfl
    · obtain ⟨taken, ht⟩ := waitLoop_trace fw.events
        (((w.call (Call.GraphQueryInterface IID.IID_IMediaEvent fw.queryMediaEvent)).call
          (Call.GraphQueryInterface IID.IID_IMediaControl fw.queryMediaControl)).call
            (Call.Run fw.run))
      refine ⟨startCalls fw ++ pollCalls taken, ?_, ?_⟩
      · simp only [World.call] at ht ⊢
        rw [ht]
        simp [startCalls]
      · intro c hc
        simp only [List.mem_append] at hc
        rcases hc with hc | hc
        · simp only [startCalls, List.mem_cons, List.mem_singleton, List.not_mem_nil,
            or_false] at hc
          rcases hc with hc | hc | hc <;> rw [hc] <;> rfl
        · exact pollCalls_isAfterSetup taken c hc

/-- A trace without transport calls has no call of a kind that only transport calls have. -/
theorem countP_eq_zero_of_quiet (w : World) (hw : w.quiet) (p : Call → Bool)
    (hp : ∀ c, p c = true → c.isTransport = true) : w.trace.countP p = 0 := by
  rw [List.countP_eq_zero]
  intro c hc hpc
  have := hw c hc
  rw [hp c hpc] at this
  exact Bool.noConfusion this

/-- Up to 429 seconds the stop time is the duration in 100-nanosecond ticks. -/
theorem recordingStopTime_exact (d : Nat) (h : d ≤ 429) :
    recordingStopTime d = Int.ofNat d * 10000000 := by
  unfold recordingStopTime
  have h1 : d * 10000000 % 2 ^ 32 = d * 10000000 := Nat.mod_eq_of_lt (by omega)
  rw [h1]
  simp

/-- From 430 seconds on the 32-bit product wraps and the stop time falls short of the duration
in ticks. -/
theorem recordingStopTime_wraps (d : Nat) (h : 430 ≤ d) :
    recordingStopTime d < Int.ofNat d * 10000000 := by
  unfold recordingStopTime
  have h1 : d * 10000000 % 2 ^ 32 < 2 ^ 32 := Nat.mod_lt _ (by norm_num)
  have h2 : (2:Nat) ^ 32 ≤ d * 10000000 := by norm_num; omega
  have h3 : d * 10000000 % 2 ^ 32 < d * 10000000 := by omega
  have : Int.ofNat (d * 10000000 % 2 ^ 32) < Int.ofNat (d * 10000000) := by
    exact Int.ofNat_lt.mpr h3
  simpa using this

/-- C1 (evaluation at the failing input): for a duration of 430 seconds both the video and the
audio bind register the window with start time 0 and stop time 5032704 ticks, which is not 430 *
10000000. -/
theorem C1_stop_time_wraps_at_430 :
    (setupVideoCaptureFilter cameraAndMicrophone 430 emptyWorld).1.trace =
      [Call.AddFilter (Filter.capture DeviceCategory.video (some 0)) S_OK,
       Call.RenderStream MediaType.MEDIATYPE_Video
         (Filter.capture DeviceCategory.video (some 0)) S_OK,
       Call.ControlStream MediaType.MEDIATYPE_Video
         (Filter.capture DeviceCategory.video (some 0)) 0 5032704 0xDEAD 0xBEEF S_OK] ∧
    (setupAudioCaptureFilter cameraAndMicrophone 430 emptyWorld).1.trace =
      [Call.AddFilter (Filter.capture DeviceCategory.audio (some 0)) S_OK,
       Call.RenderStream MediaType.MEDIATYPE_Audio
         (Filter.capture DeviceCategory.audio (some 0)) S_OK,
       Call.ControlStream MediaType.MEDIATYPE_Audio
         (Filter.capture DeviceCategory.audio (some 0)) 0 5032704 0xDEAD 0xBEEF S_OK] ∧
    (5032704 : Int) ≠ 430 * 10000000 := by
  refine ⟨?_, ?_, ?_⟩
  · decide
  · decide
  · decide

/-- With both devices bound and every call of the synchronisation block succeeding, these are
the calls of `setupCaptureGraph`: video is connected before audio, master stream 1 is set, and
both queries on the multiplexer and the `put_Mode` call go through `IID_IConfigAviMux`. -/
theorem setupCaptureGraph_both_synced (fw : Framework) (d : Nat)
    (hprep : graphPrepared fw = true)
    (hv : binds fw DeviceCategory.video = true)
    (ha : binds fw DeviceCategory.audio = true)
    (hsync : FAILED fw.queryConfigAviMux = false ∧ FAILED fw.setMasterStream = false ∧
      FAILED fw.queryConfigAviMuxAgain = false ∧ FAILED fw.putMode = false) :
    setupCaptureGraph fw d =
      ({ graph := [Filter.aviMux, Filter.fileWriter, videoCaptureFilter fw,
           audioCaptureFilter fw],
         trace := Call.SetOutputFileName fw.setOutputFileName :: videoBindCalls fw d ++
           audioBindCalls fw d ++
           [Call.MuxQueryInterface IID.IID_IConfigAviMux fw.queryConfigAviMux,
            Call.SetMasterStream IID.IID_IConfigAviMux 1 fw.setMasterStream,
            Call.MuxQueryInterface IID.IID_IConfigAviMux fw.queryConfigAviMuxAgain,
            Call.put_Mode IID.IID_IConfigAviMux InterleavingMode.INTERLEAVE_CAPTURE
              fw.putMode] }, Except.ok S_OK) := by
  rw [setupCaptureGraph_both fw d hprep hv ha]
  simp [configureMux, hsync.1, hsync.2.1, hsync.2.2.1, hsync.2.2.2, World.call]

/-- C4 (evaluation at the failing input): with a camera and a microphone and every framework
call succeeding, `setupCaptureGraph` connects video before audio and sets master stream 1, but
both `QueryInterface` calls on the multiplexer ask for `IID_IConfigAviMux`, so
`put_Mode(INTERLEAVE_CAPTURE)` goes through a pointer to that interface and no call reaches the
interleaving configuration. -/
theorem C4_interleaving_call_on_wrong_interface :
    (setupCaptureGraph cameraAndMicrophone 10).2 = Except.ok S_OK ∧
    (setupCaptureGraph cameraAndMicrophone 10).1.trace =
      [Call.SetOutputFileName S_OK,
       Call.AddFilter (Filter.capture DeviceCategory.video (some 0)) S_OK,
       Call.RenderStream MediaType.MEDIATYPE_Video
         (Filter.capture DeviceCategory.video (some 0)) S_OK,
       Call.ControlStream MediaType.MEDIATYPE_Video
         (Filter.capture DeviceCategory.video (some 0)) 0 100000000 0xDEAD 0xBEEF S_OK,
       Call.AddFilter (Filter.capture DeviceCategory.audio (some 0)) S_OK,
       Call.RenderStream MediaType.MEDIATYPE_Audio
         (Filter.capture DeviceCategory.audio (some 0)) S_OK,
       Call.ControlStream MediaType.MEDIATYPE_Audio
         (Filter.capture DeviceCategory.audio (some 0)) 0 100000000 0xDEAD 0xBEEF S_OK,
       Call.MuxQueryInterface IID.IID_IConfigAviMux S_OK,
       Call.SetMasterStream IID.IID_IConfigAviMux 1 S_OK,
       Call.MuxQueryInterface IID.IID_IConfigAviMux S_OK,
       Call.put_Mode IID.IID_IConfigAviMux InterleavingMode.INTERLEAVE_CAPTURE S_OK] ∧
    (setupCaptureGraph cameraAndMicrophone 10).1.trace.countP Call.isSetInterleaving = 0 := by
  refine ⟨?_, ?_, ?_⟩
  · rfl
  · decide
  · decide

/-- C7 (counterexample): the enumerator is obtained and yields device 7 first, which cannot be
bound, then device 9; `getCaptureFilter` returns device 9, not the device at position 0. -/
theorem C7_counterexample :
    FAILED (getEnumMoniker secondDeviceBinds).1 = false ∧
    secondDeviceBinds.monikers.head? = some { device := 7, bindToObject := E_FAIL } ∧
    getCaptureFilter secondDeviceBinds = (S_OK, some 9) := by
  decide

/-- When one of the four preparation calls fails, `setupCaptureGraph` returns that failure code
before any device lookup. -/
theorem setupCaptureGraph_not_prepared (fw : Framework) (d : Nat)
    (h : graphPrepared fw = false) :
    ∃ w hr, setupCaptureGraph fw d = (w, Except.ok hr) ∧ FAILED hr = true ∧
      (w.trace = [] ∨ w.trace = [Call.SetOutputFileName fw.setOutputFileName]) := by
  by_cases h1 : FAILED fw.createCaptureGraphBuilder2 = true
  · exact ⟨{ graph := [], trace := [] }, fw.createCaptureGraphBuilder2,
      by simp [setupCaptureGraph, h1], h1, Or.inl rfl⟩
  · by_cases h2 : FAILED fw.createFilterGraph = true
    · exact ⟨{ graph := [], trace := [] }, fw.createFilterGraph,
        by simp [setupCaptureGraph, h1, h2], h2, Or.inl rfl⟩
    · by_cases h3 : FAILED fw.setFiltergraph = true
      · exact ⟨{ graph := [], trace := [] }, fw.setFiltergraph,
          by simp [setupCaptureGraph, h1, h2, h3], h3, Or.inl rfl⟩
      · by_cases h4 : FAILED fw.setOutputFileName = true
        · exact ⟨World.SetOutputFileName { graph := [], trace := [] } fw.setOutputFileName,
            fw.setOutputFileName, by simp [setupCaptureGraph, h1, h2, h3, h4], h4,
            Or.inr (by simp [World.SetOutputFileName])⟩
        · simp [graphPrepared, h1, h2, h3, h4] at h

/-- C3: for every duration, when device location fails for both categories, `record` throws; the
error is "No camera and microphone available" whenever the lookups are reached, and no call of
`record` adds a capture filter, configures synchronisation, or runs, polls or stops the
pipeline. -/
theorem C3_no_devices_is_fatal (fw : Framework) (d : Nat)
    (hv : FAILED (getCaptureFilter (fw.deviceEnum DeviceCategory.video)).1 = true)
    (ha : FAILED (getCaptureFilter (fw.deviceEnum DeviceCategory.audio)).1 = true) :
    (graphPrepared fw = true →
      (record fw d).2 = RecordOutcome.threw RuntimeError.noCameraAndMicrophone) ∧
    (∃ e, (record fw d).2 = RecordOutcome.threw e) ∧
    (∀ c ∈ (record fw d).1.trace,
      c.isAddFilter = false ∧ c.isSync = false ∧ c.isTransport = false) := by
  by_cases hprep : graphPrepared fw = true
  · have hrec := record_of_setup_error fw d _ _
      (setupCaptureGraph_none_available fw d hprep hv ha)
    refine ⟨fun _ => by rw [hrec], ⟨_, by rw [hrec]⟩, ?_⟩
    intro c hc
    rw [hrec] at hc
    simp only [preparedWorld, List.mem_singleton] at hc
    rw [hc]
    exact ⟨rfl, rfl, rfl⟩
  · obtain ⟨w, hr, hs, hf, htrace⟩ :=
      setupCaptureGraph_not_prepared fw d (by simpa using hprep)
    have hrec := record_of_setup_failed fw d w hr hs hf
    refine ⟨fun h => absurd h hprep, ⟨_, by rw [hrec]⟩, ?_⟩
    intro c hc
    rw [hrec] at hc
    rcases htrace with ht | ht
    · rw [ht] at hc
      simp at hc
    · simp only [ht, List.mem_singleton] at hc
      rw [hc]
      exact ⟨rfl, rfl, rfl⟩

/-- C3 at a machine without devices. -/
theorem C3_witness :
    (record noDevices 10).2 = RecordOutcome.threw RuntimeError.noCameraAndMicrophone ∧
    (∃ e, (record noDevices 10).2 = RecordOutcome.threw e) ∧
    (∀ c ∈ (record noDevices 10).1.trace,
      c.isAddFilter = false ∧ c.isSync = false ∧ c.isTransport = false) :=
  have h := C3_no_devices_is_fatal noDevices 10 (by decide) (by decide)
  ⟨h.1 (by decide), h.2⟩

/-- A failure of any call of the synchronisation block is what the block returns. -/
theorem configureMux_fails (fw : Framework) (w : World)
    (h : FAILED fw.queryConfigAviMux = true ∨ FAILED fw.setMasterStream = true ∨
      FAILED fw.queryConfigAviMuxAgain = true ∨ FAILED fw.putMode = true) :
    FAILED (configureMux fw w).2 = true := by
  unfold configureMux
  simp only
  split_ifs with h1 h2 h3 h4
  · exact h1
  · exact h2
  · exact h3
  · exact h4
  · rcases h with h | h | h | h
    · exact absurd h h1
    · exact absurd h h2
    · exact absurd h h3
    · exact absurd h h4

/-- C9: with both sources bound, if obtaining the configuration interface (either query),
`SetMasterStream` or `put_Mode` fails, `record` throws "setupCaptureGraph failed" with that
failure code and never calls `Run`, `GetEvent`, `FreeEventParams` or `Stop`. -/
theorem C9_sync_failure_is_fatal (fw : Framework) (d : Nat)
    (hprep : graphPrepared fw = true)
    (hv : binds fw DeviceCategory.video = true)
    (ha : binds fw DeviceCategory.audio = true)
    (hfail : FAILED fw.queryConfigAviMux = true ∨ FAILED fw.setMasterStream = true ∨
      FAILED fw.queryConfigAviMuxAgain = true ∨ FAILED fw.putMode = true) :
    (∃ hr, FAILED hr = true ∧
      (record fw d).2 = RecordOutcome.threw (RuntimeError.setupCaptureGraphFailed hr)) ∧
    (∀ c ∈ (record fw d).1.trace, c.isTransport = false) := by
  have hs := setupCaptureGraph_both fw d hprep hv ha
  have hf := configureMux_fails fw
    { graph := [Filter.aviMux, Filter.fileWriter, videoCaptureFilter fw, audioCaptureFilter fw],
      trace := Call.SetOutputFileName fw.setOutputFileName :: videoBindCalls fw d ++
        audioBindCalls fw d } hfail
  have hrec := record_of_setup_failed fw d _ _ hs hf
  have hq := setupCaptureGraph_quiet fw d
  refine ⟨⟨_, hf, by rw [hrec]⟩, ?_⟩
  intro c hc
  rw [hrec] at hc
  rw [hs] at hq
  exact hq c hc

/-- C9 at a machine whose multiplexer rejects `put_Mode`. -/
theorem C9_witness :
    (∃ hr, FAILED hr = true ∧
      (record putModeRejected 10).2 =
        RecordOutcome.threw (RuntimeError.setupCaptureGraphFailed hr)) ∧
    (∀ c ∈ (record putModeRejected 10).1.trace, c.isTransport = false) :=
  C9_sync_failure_is_fatal putModeRejected 10 (by decide) (by decide) (by decide)
    (Or.inr (Or.inr (Or.inr (by decide))))

/-- When the pipeline starts and a stop notification follows answers that do not pass the exit
test, `record` polls up to that notification, calls `Stop` and returns. -/
theorem record_returns_at_stop (fw : Framework) (d : Nat) (w : World) (hr : HRESULT)
    (waiting : List Poll) (stopEvent : Poll) (later : List Poll)
    (hs : setupCaptureGraph fw d = (w, Except.ok hr)) (hf : FAILED hr = false)
    (hstart : pipelineStarts fw = true)
    (hstream : fw.events = waiting ++ stopEvent :: later)
    (hwaiting : ∀ p ∈ waiting, SUCCEEDED p.result = false ∨ p.parameter2 ≠ 0xBEEF)
    (hstop : SUCCEEDED stopEvent.result = true ∧ stopEvent.parameter2 = 0xBEEF) :
    record fw d =
      ({ graph := w.graph,
         trace := w.trace ++ startCalls fw ++ pollCalls (waiting ++ [stopEvent]) ++
           [Call.Stop] }, RecordOutcome.returned) := by
  rw [record_of_setup_ok fw d w hr hs hf hstart, hstream,
    waitLoop_exits_at_stop waiting stopEvent later _ hwaiting hstop]
  simp [World.call]

/-- There is no `GetEvent` during the setup. -/
theorem setup_countP_isGetEvent (fw : Framework) (d : Nat) :
    (setupCaptureGraph fw d).1.trace.countP Call.isGetEvent = 0 :=
  countP_eq_zero_of_quiet _ (setupCaptureGraph_quiet fw d) _
    (fun c hc => by cases c <;> simp_all [Call.isGetEvent, Call.isTransport])

/-- There is no `FreeEventParams` during the setup. -/
theorem setup_countP_isFreeEventParams (fw : Framework) (d : Nat) :
    (setupCaptureGraph fw d).1.trace.countP Call.isFreeEventParams = 0 :=
  countP_eq_zero_of_quiet _ (setupCaptureGraph_quiet fw d) _
    (fun c hc => by cases c <;> simp_all [Call.isFreeEventParams, Call.isTransport])

/-- C2: when `record` reaches its wait loop and the event stream is N dequeued events whose
second parameter is not 0xBEEF followed by one whose second parameter is 0xBEEF, `record`
returns; its calls after starting the pipeline are `GetEvent` then `FreeEventParams` for each of
these N+1 events in order, then `Stop`; there are exactly N+1 `GetEvent` and N+1
`FreeEventParams` calls; and the loop has not exited after any k <= N events. -/
theorem C2_wait_loop_consumes_until_stop (fw : Framework) (d : Nat)
    (unrelated : List Poll) (stopEvent : Poll) (later : List Poll)
    (hsetup : (setupCaptureGraph fw d).2 = Except.ok S_OK)
    (hstart : pipelineStarts fw = true)
    (hstream : fw.events = unrelated ++ stopEvent :: later)
    (hunrelated : ∀ p ∈ unrelated, SUCCEEDED p.result = true ∧ p.parameter2 ≠ 0xBEEF)
    (hstop : SUCCEEDED stopEvent.result = true ∧ stopEvent.parameter2 = 0xBEEF) :
    (record fw d).2 = RecordOutcome.returned ∧
    (record fw d).1.trace =
      (setupCaptureGraph fw d).1.trace ++ startCalls fw ++
        pollCalls (unrelated ++ [stopEvent]) ++ [Call.Stop] ∧
    (record fw d).1.trace.countP Call.isGetEvent = unrelated.length + 1 ∧
    (record fw d).1.trace.countP Call.isFreeEventParams = unrelated.length + 1 ∧
    (∀ k, k ≤ unrelated.length → ∀ w, (waitLoop (fw.events.take k) w).2 = false) := by
  have hwaiting : ∀ p ∈ unrelated, SUCCEEDED p.result = false ∨ p.parameter2 ≠ 0xBEEF :=
    fun p hp => Or.inr (hunrelated p hp).2
  have hs : setupCaptureGraph fw d = ((setupCaptureGraph fw d).1, Except.ok S_OK) := by
    rw [← hsetup]
  have hrec := record_returns_at_stop fw d _ S_OK unrelated stopEvent later hs (by decide)
    hstart hstream hwaiting hstop
  have hg := setup_countP_isGetEvent fw d
  have hfree := setup_countP_isFreeEventParams fw d
  refine ⟨by rw [hrec], by rw [hrec], ?_, ?_, ?_⟩
  · rw [hrec]
    simp [List.countP_append, hg, countP_isGetEvent_pollCalls, startCalls, Call.isGetEvent]
  · rw [hrec]
    simp [List.countP_append, hfree, countP_isFreeEventParams_pollCalls, startCalls,
      Call.isFreeEventParams]
  · intro k hk w
    have htake : fw.events.take k = unrelated.take k := by
      rw [hstream, List.take_append_of_le_length hk]
    rw [htake, waitLoop_keeps_polling (unrelated.take k) w
      (fun p hp => hwaiting p (List.mem_of_mem_take hp))]

/-- C2 at a machine whose queue holds the start notification and the stop notification. -/
theorem C2_witness :
    (record notifiedRecorder 10).2 = RecordOutcome.returned ∧
    (record notifiedRecorder 10).1.trace =
      (setupCaptureGraph notifiedRecorder 10).1.trace ++ startCalls notifiedRecorder ++
        pollCalls ([{ result := S_OK, eventCode := 17, parameter1 := 0, parameter2 := 0xDEAD }]
          ++ [{ result := S_OK, eventCode := 18, parameter1 := 0, parameter2 := 0xBEEF }]) ++
        [Call.Stop] ∧
    (record notifiedRecorder 10).1.trace.countP Call.isGetEvent = 1 + 1 ∧
    (record notifiedRecorder 10).1.trace.countP Call.isFreeEventParams = 1 + 1 ∧
    (∀ k, k ≤ 1 → ∀ w, (waitLoop (notifiedRecorder.events.take k) w).2 = false) :=
  C2_wait_loop_consumes_until_stop notifiedRecorder 10
    [{ result := S_OK, eventCode := 17, parameter1 := 0, parameter2 := 0xDEAD }]
    { result := S_OK, eventCode := 18, parameter1 := 0, parameter2 := 0xBEEF } []
    rfl (by decide) (by decide) (by decide) (by decide)

/-- No call `record` makes itself is a synchronisation call. -/
theorem isSync_of_isAfterSetup (c : Call) (h : c.isAfterSetup = true) : c.isSync = false := by
  cases c <;> first | rfl | exact Bool.noConfusion h

/-- No call `record` makes itself is an `AddFilter`. -/
theorem isAddFilter_of_isAfterSetup (c : Call) (h : c.isAfterSetup = true) :
    c.isAddFilter = false := by
  cases c <;> first | rfl | exact Bool.noConfusion h

/-- No call `record` makes itself is a `RenderStream`. -/
theorem isRenderStream_of_isAfterSetup (c : Call) (h : c.isAfterSetup = true) :
    c.isRenderStream = false := by
  cases c <;> first | rfl | exact Bool.noConfusion h

/-- No call `record` makes itself is a `ControlStream`. -/
theorem isControlStream_of_isAfterSetup (c : Call) (h : c.isAfterSetup = true) :
    c.isControlStream = false := by
  cases c <;> first | rfl | exact Bool.noConfusion h

/-- Calls `record` makes itself do not count for a kind of call made only in the setup. -/
theorem countP_eq_zero_of_afterSetup (tail : List Call)
    (h : ∀ c ∈ tail, c.isAfterSetup = true) (p : Call → Bool)
    (hp : ∀ c, c.isAfterSetup = true → p c = false) : tail.countP p = 0 := by
  rw [List.countP_eq_zero]
  intro c hc
  rw [hp c (h c hc)]
  exact Bool.false_ne_true

/-- When the setup succeeds and both interfaces of the graph are obtained, `record` calls `Run`.
-/
theorem record_runs (fw : Framework) (d : Nat) (w : World) (hr : HRESULT)
    (hs : setupCaptureGraph fw d = (w, Except.ok hr)) (hf : FAILED hr = false)
    (hev : FAILED fw.queryMediaEvent = false) (hctl : FAILED fw.queryMediaControl = false) :
    Call.Run fw.run ∈ (record fw d).1.trace := by
  unfold record
  rw [hs]
  simp only [hf, hev, hctl]
  by_cases hrun : FAILED fw.run = true
  · simp [hrun, World.call]
  · obtain ⟨taken, ht⟩ := waitLoop_trace fw.events
      (((w.call (Call.GraphQueryInterface IID.IID_IMediaEvent fw.queryMediaEvent)).call
        (Call.GraphQueryInterface IID.IID_IMediaControl fw.queryMediaControl)).call
          (Call.Run fw.run))
    simp only [hrun, Bool.false_eq_true, if_false]
    split_ifs
    · simp only [World.call] at ht ⊢
      rw [ht]
      simp
    · rw [ht]
      simp [World.call]

/-- With exactly one source the setup returns `S_OK`, makes no synchronisation call and adds,
connects and schedules one stream. -/
theorem single_source_setup (fw : Framework) (d : Nat)
    (hprep : graphPrepared fw = true)
    (hone : (binds fw DeviceCategory.video = true ∧
        FAILED (getCaptureFilter (fw.deviceEnum DeviceCategory.audio)).1 = true) ∨
      (FAILED (getCaptureFilter (fw.deviceEnum DeviceCategory.video)).1 = true ∧
        binds fw DeviceCategory.audio = true)) :
    (setupCaptureGraph fw d).2 = Except.ok S_OK ∧
    (∀ c ∈ (setupCaptureGraph fw d).1.trace, c.isSync = false) ∧
    (setupCaptureGraph fw d).1.trace.countP Call.isAddFilter = 1 ∧
    (setupCaptureGraph fw d).1.trace.countP Call.isRenderStream = 1 ∧
    (setupCaptureGraph fw d).1.trace.countP Call.isControlStream = 1 := by
  rcases hone with ⟨hv, ha⟩ | ⟨hv, ha⟩
  · rw [setupCaptureGraph_video_only fw d hprep hv ha]
    refine ⟨rfl, ?_, ?_, ?_, ?_⟩ <;>
      simp [videoBindCalls, videoControlStream, Call.isSync, Call.isAddFilter,
        Call.isRenderStream, Call.isControlStream]
  · rw [setupCaptureGraph_audio_only fw d hprep hv ha]
    refine ⟨rfl, ?_, ?_, ?_, ?_⟩ <;>
      simp [audioBindCalls, audioControlStream, Call.isSync, Call.isAddFilter,
        Call.isRenderStream, Call.isControlStream]

/-- C5: when exactly one category binds and the other has no device, `setupCaptureGraph` returns
`S_OK` (nothing is thrown for the missing category); `record` makes no synchronisation call (no
query on the multiplexer, no `SetMasterStream`, no `put_Mode`) and exactly one `AddFilter`, one
`RenderStream` and one `ControlStream`; it calls `Run` once the two interfaces of the graph are
obtained; and when the pipeline starts and an event with the stop cookie is dequeued after
answers that are not such an event, it returns with `Stop` as its last call. -/
theorem C5_single_source_records_without_sync (fw : Framework) (d : Nat)
    (hprep : graphPrepared fw = true)
    (hone : (binds fw DeviceCategory.video = true ∧
        FAILED (getCaptureFilter (fw.deviceEnum DeviceCategory.audio)).1 = true) ∨
      (FAILED (getCaptureFilter (fw.deviceEnum DeviceCategory.video)).1 = true ∧
        binds fw DeviceCategory.audio = true)) :
    (setupCaptureGraph fw d).2 = Except.ok S_OK ∧
    (∀ c ∈ (record fw d).1.trace, c.isSync = false) ∧
    (record fw d).1.trace.countP Call.isAddFilter = 1 ∧
    (record fw d).1.trace.countP Call.isRenderStream = 1 ∧
    (record fw d).1.trace.countP Call.isControlStream = 1 ∧
    (FAILED fw.queryMediaEvent = false → FAILED fw.queryMediaControl = false →
      Call.Run fw.run ∈ (record fw d).1.trace) ∧
    (pipelineStarts fw = true →
      ∀ (waiting : List Poll) (stopEvent : Poll) (later : List Poll),
        fw.events = waiting ++ stopEvent :: later →
        (∀ p ∈ waiting, SUCCEEDED p.result = false ∨ p.parameter2 ≠ 0xBEEF) →
        (SUCCEEDED stopEvent.result = true ∧ stopEvent.parameter2 = 0xBEEF) →
          (record fw d).2 = RecordOutcome.returned ∧
          (record fw d).1.trace.getLast? = some Call.Stop ∧
          (record fw d).1.trace.countP Call.isGetEvent = waiting.length + 1) := by
  obtain ⟨hok, hsync, hadd, hrender, hcontrol⟩ := single_source_setup fw d hprep hone
  obtain ⟨tail, htrace, htail⟩ := record_trace fw d
  have hs : setupCaptureGraph fw d = ((setupCaptureGraph fw d).1, Except.ok S_OK) := by
    rw [← hok]
  refine ⟨hok, ?_, ?_, ?_, ?_, ?_, ?_⟩
  · intro c hc
    rw [htrace, List.mem_append] at hc
    rcases hc with hc | hc
    · exact hsync c hc
    · exact isSync_of_isAfterSetup c (htail c hc)
  · rw [htrace, List.countP_append, hadd, countP_eq_zero_of_afterSetup tail htail _
      isAddFilter_of_isAfterSetup]
  · rw [htrace, List.countP_append, hrender, countP_eq_zero_of_afterSetup tail htail _
      isRenderStream_of_isAfterSetup]
  · rw [htrace, List.countP_append, hcontrol, countP_eq_zero_of_afterSetup tail htail _
      isControlStream_of_isAfterSetup]
  · intro hev hctl
    exact record_runs fw d _ S_OK hs (by decide) hev hctl
  · intro hstart waiting stopEvent later hstream hwaiting hstop
    have hrec := record_returns_at_stop fw d _ S_OK waiting stopEvent later hs (by decide)
      hstart hstream hwaiting hstop
    have hg := setup_countP_isGetEvent fw d
    refine ⟨by rw [hrec], by rw [hrec]; simp, ?_⟩
    rw [hrec]
    simp [List.countP_append, hg, countP_isGetEvent_pollCalls, startCalls, Call.isGetEvent]

/-- C5 at a machine with a camera and no microphone. -/
theorem C5_witness :
    (setupCaptureGraph cameraOnly 10).2 = Except.ok S_OK ∧
    (∀ c ∈ (record cameraOnly 10).1.trace, c.isSync = false) ∧
    (record cameraOnly 10).1.trace.countP Call.isAddFilter = 1 ∧
    (record cameraOnly 10).1.trace.countP Call.isRenderStream = 1 ∧
    (record cameraOnly 10).1.trace.countP Call.isControlStream = 1 ∧
    Call.Run cameraOnly.run ∈ (record cameraOnly 10).1.trace ∧
    (record cameraOnly 10).2 = RecordOutcome.returned ∧
    (record cameraOnly 10).1.trace.getLast? = some Call.Stop ∧
    (record cameraOnly 10).1.trace.countP Call.isGetEvent = 2 + 1 :=
  have h := C5_single_source_records_without_sync cameraOnly 10 (by decide)
    (Or.inl ⟨by decide, by decide⟩)
  ⟨h.1, h.2.1, h.2.2.1, h.2.2.2.1, h.2.2.2.2.1, h.2.2.2.2.2.1 (by decide) (by decide),
    h.2.2.2.2.2.2 (by decide)
      [{ result := E_ABORT, eventCode := 0, parameter1 := 0, parameter2 := 0 },
       { result := S_OK, eventCode := 17, parameter1 := 0, parameter2 := 0xDEAD }]
      { result := S_OK, eventCode := 18, parameter1 := 0, parameter2 := 0xBEEF } []
      (by decide) (by decide) (by decide)⟩

/-- Two runs of the loop on answers that agree poll by poll take the same number of polls and
exit, or not, together. -/
theorem waitLoop_agree (a b : List Poll) (h : List.Forall₂ agree a b) (wa wb : World) :
    ∃ n, (waitLoop a wa).1.trace = wa.trace ++ pollCalls (a.take n) ∧
      (waitLoop b wb).1.trace = wb.trace ++ pollCalls (b.take n) ∧
      (waitLoop a wa).2 = (waitLoop b wb).2 := by
  induction h generalizing wa wb with
  | nil => exact ⟨0, by simp [waitLoop, pollCalls]⟩
  | @cons p q ps qs hpq _ ih =>
    have htest : (SUCCEEDED p.result &&
          decide (p.parameter2 = Int.ofNat RECORDING_STOP_COOKIE)) =
        (SUCCEEDED q.result && decide (q.parameter2 = Int.ofNat RECORDING_STOP_COOKIE)) := by
      rw [← hpq.1]
      cases hsucc : SUCCEEDED p.result
      · rfl
      · rw [hpq.2 hsucc]
    rw [waitLoop, waitLoop, ← htest]
    cases hexit : (SUCCEEDED p.result &&
        decide (p.parameter2 = Int.ofNat RECORDING_STOP_COOKIE))
    · obtain ⟨n, h1, h2, h3⟩ := ih
        ((wa.call (Call.GetEvent p)).call
          (Call.FreeEventParams p.eventCode p.parameter1 p.parameter2))
        ((wb.call (Call.GetEvent q)).call
          (Call.FreeEventParams q.eventCode q.parameter1 q.parameter2))
      refine ⟨n + 1, ?_, ?_, ?_⟩
      · simp only [Bool.false_eq_true, if_false, h1]
        simp [World.call, pollCalls]
      · simp only [Bool.false_eq_true, if_false, h2]
        simp [World.call, pollCalls]
      · simpa using h3
    · exact ⟨1, by simp [World.call, pollCalls], by simp [World.call, pollCalls], by simp⟩

/-- C10: for two event streams that agree poll by poll on success and, for dequeued events, on
the second parameter, the loop polls the same number n of answers in both and exits in both or
in neither, whatever the event codes and first parameters; a dequeued event of any code and
first parameter whose second parameter is 0xBEEF makes the loop exit; a failed poll, or an event
whose second parameter is 0xDEAD, makes the loop go on with the next poll. -/
theorem C10_exit_depends_only_on_success_and_parameter2 :
    (∀ (a b : List Poll), List.Forall₂ agree a b → ∀ (wa wb : World),
      ∃ n, (waitLoop a wa).1.trace = wa.trace ++ pollCalls (a.take n) ∧
        (waitLoop b wb).1.trace = wb.trace ++ pollCalls (b.take n) ∧
        (waitLoop a wa).2 = (waitLoop b wb).2) ∧
    (∀ (hr eventCode parameter1 : Int) (later : List Poll) (w : World),
      SUCCEEDED hr = true →
        waitLoop (Poll.mk hr eventCode parameter1 0xBEEF :: later) w =
          ({ graph := w.graph,
             trace := w.trace ++
               [Call.GetEvent (Poll.mk hr eventCode parameter1 0xBEEF),
                Call.FreeEventParams eventCode parameter1 0xBEEF] }, true)) ∧
    (∀ (p : Poll) (later : List Poll) (w : World),
      SUCCEEDED p.result = false ∨ p.parameter2 = 0xDEAD →
        waitLoop (p :: later) w =
          waitLoop later
            { graph := w.graph,
              trace := w.trace ++
                [Call.GetEvent p,
                 Call.FreeEventParams p.eventCode p.parameter1 p.parameter2] }) := by
  refine ⟨waitLoop_agree, ?_, ?_⟩
  · intro hr eventCode parameter1 later w hsucc
    rw [waitLoop]
    simp [hsucc, World.call]
  · intro p later w hp
    have hexit := exitTest_false p (by
      rcases hp with h | h
      · exact Or.inl h
      · exact Or.inr (by rw [h]; decide))
    rw [waitLoop]
    simp only [hexit]
    simp [World.call]

/-- C10 at two streams that differ in event codes, first parameters, the success code and the
stale second parameter of the failed poll. -/
theorem C10_witness :
    (∃ n, (waitLoop sampleEvents emptyWorld).1.trace =
        emptyWorld.trace ++ pollCalls (sampleEvents.take n) ∧
      (waitLoop relabelledEvents emptyWorld).1.trace =
        emptyWorld.trace ++ pollCalls (relabelledEvents.take n) ∧
      (waitLoop sampleEvents emptyWorld).2 = (waitLoop relabelledEvents emptyWorld).2) ∧
    waitLoop (Poll.mk S_OK 99 5 0xBEEF :: sampleEvents) emptyWorld =
      ({ graph := emptyWorld.graph,
         trace := emptyWorld.trace ++
           [Call.GetEvent (Poll.mk S_OK 99 5 0xBEEF), Call.FreeEventParams 99 5 0xBEEF] },
        true) ∧
    waitLoop (Poll.mk E_ABORT 0 0 0xBEEF :: sampleEvents) emptyWorld =
      waitLoop sampleEvents
        { graph := emptyWorld.graph,
          trace := emptyWorld.trace ++
            [Call.GetEvent (Poll.mk E_ABORT 0 0 0xBEEF),
             Call.FreeEventParams 0 0 0xBEEF] } ∧
    waitLoop (Poll.mk S_OK 17 0 0xDEAD :: sampleEvents) emptyWorld =
      waitLoop sampleEvents
        { graph := emptyWorld.graph,
          trace := emptyWorld.trace ++
            [Call.GetEvent (Poll.mk S_OK 17 0 0xDEAD),
             Call.FreeEventParams 17 0 0xDEAD] } :=
  ⟨C10_exit_depends_only_on_success_and_parameter2.1 sampleEvents relabelledEvents
      (List.Forall₂.cons ⟨by decide, by decide⟩
        (List.Forall₂.cons ⟨by decide, by decide⟩
          (List.Forall₂.cons ⟨by decide, by decide⟩ List.Forall₂.nil)))
      emptyWorld emptyWorld,
   C10_exit_depends_only_on_success_and_parameter2.2.1 S_OK 99 5 sampleEvents emptyWorld
      (by decide),
   C10_exit_depends_only_on_success_and_parameter2.2.2 (Poll.mk E_ABORT 0 0 0xBEEF)
      sampleEvents emptyWorld (Or.inl (by decide)),
   C10_exit_depends_only_on_success_and_parameter2.2.2 (Poll.mk S_OK 17 0 0xDEAD)
      sampleEvents emptyWorld (Or.inr rfl)⟩

/-- Every way of failing to locate a device makes `getCaptureFilter` answer a failure code. -/
theorem getCaptureFilter_fails_of_locateFails (e : SystemDeviceEnum) (h : locateFails e) :
    FAILED (getCaptureFilter e).1 = true := by
  apply getCaptureFilter_fails_of
  rcases h with (h | h) | (h | h) | h
  · exact Or.inl h
  · exact Or.inr (Or.inl h)
  · exact Or.inr (Or.inr (Or.inl h))
  · exact Or.inr (Or.inr (Or.inr (by rw [h]; intro m hm; simp at hm)))
  · exact Or.inr (Or.inr (Or.inr h))

/-- C8: for the video and for the audio bind alike, whenever locating a device fails (the
enumerator cannot be created, the category is empty, or no enumerated device can be bound) the
bind returns `false` without throwing and leaves graph and call trace as they were: nothing is
added, connected or scheduled.  An empty enumeration and an enumeration error thus give the
caller the same outcome. -/
theorem C8_locate_failure_gives_unavailable (fw : Framework) (d : Nat) (w : World) :
    (locateFails (fw.deviceEnum DeviceCategory.video) →
      setupVideoCaptureFilter fw d w = (w, Except.ok false)) ∧
    (locateFails (fw.deviceEnum DeviceCategory.audio) →
      setupAudioCaptureFilter fw d w = (w, Except.ok false)) :=
  ⟨fun h => setupVideoCaptureFilter_unavailable fw d w
      (getCaptureFilter_fails_of_locateFails _ h),
   fun h => setupAudioCaptureFilter_unavailable fw d w
      (getCaptureFilter_fails_of_locateFails _ h)⟩

/-- C8 at a machine whose two categories are empty. -/
theorem C8_witness :
    setupVideoCaptureFilter noDevices 10 emptyWorld = (emptyWorld, Except.ok false) ∧
    setupAudioCaptureFilter noDevices 10 emptyWorld = (emptyWorld, Except.ok false) :=
  ⟨(C8_locate_failure_gives_unavailable noDevices 10 emptyWorld).1
      (Or.inr (Or.inl (Or.inl rfl))),
   (C8_locate_failure_gives_unavailable noDevices 10 emptyWorld).2
      (Or.inr (Or.inl (Or.inl rfl)))⟩

/-- C7 (as amended) at the enumeration of the counterexample. -/
theorem C7_witness :
    getCaptureFilter secondDeviceBinds = (S_OK, some 9) :=
  C7_first_bindable_device secondDeviceBinds [{ device := 7, bindToObject := E_FAIL }]
    { device := 9, bindToObject := S_OK } [] (by decide) rfl (by decide) (by decide)

/-- C6 at a machine that rejects `RenderStream` and at one that rejects `ControlStream`. -/
theorem C6_witness :
    ((setupVideoCaptureFilter connectRejected 10 emptyWorld).2 = Except.error
        (RuntimeError.renderStreamFailed DeviceCategory.video E_FAIL) ∧
      (setupVideoCaptureFilter connectRejected 10 emptyWorld).1.trace = emptyWorld.trace ++
        [Call.AddFilter (videoCaptureFilter connectRejected) S_OK,
         Call.RenderStream MediaType.MEDIATYPE_Video (videoCaptureFilter connectRejected) E_FAIL,
         Call.RemoveFilter (videoCaptureFilter connectRejected)] ∧
      videoCaptureFilter connectRejected ∉
        (setupVideoCaptureFilter connectRejected 10 emptyWorld).1.graph) ∧
    ((setupVideoCaptureFilter scheduleRejected 10 emptyWorld).2 = Except.error
        (RuntimeError.controlStreamFailed DeviceCategory.video E_FAIL) ∧
      (setupVideoCaptureFilter scheduleRejected 10 emptyWorld).1.trace = emptyWorld.trace ++
        [Call.AddFilter (videoCaptureFilter scheduleRejected) S_OK,
         Call.RenderStream MediaType.MEDIATYPE_Video (videoCaptureFilter scheduleRejected) S_OK,
         videoControlStream scheduleRejected 10,
         Call.RemoveFilter (videoCaptureFilter scheduleRejected)] ∧
      videoCaptureFilter scheduleRejected ∉
        (setupVideoCaptureFilter scheduleRejected 10 emptyWorld).1.graph) ∧
    ((setupAudioCaptureFilter connectRejected 10 emptyWorld).2 = Except.error
        (RuntimeError.renderStreamFailed DeviceCategory.audio E_FAIL) ∧
      (setupAudioCaptureFilter connectRejected 10 emptyWorld).1.trace = emptyWorld.trace ++
        [Call.AddFilter (audioCaptureFilter connectRejected) S_OK,
         Call.RenderStream MediaType.MEDIATYPE_Audio (audioCaptureFilter connectRejected) E_FAIL,
         Call.RemoveFilter (audioCaptureFilter connectRejected)] ∧
      audioCaptureFilter connectRejected ∉
        (setupAudioCaptureFilter connectRejected 10 emptyWorld).1.graph) ∧
    ((setupAudioCaptureFilter scheduleRejected 10 emptyWorld).2 = Except.error
        (RuntimeError.controlStreamFailed DeviceCategory.audio E_FAIL) ∧
      (setupAudioCaptureFilter scheduleRejected 10 emptyWorld).1.trace = emptyWorld.trace ++
        [Call.AddFilter (audioCaptureFilter scheduleRejected) S_OK,
         Call.RenderStream MediaType.MEDIATYPE_Audio (audioCaptureFilter scheduleRejected) S_OK,
         audioControlStream scheduleRejected 10,
         Call.RemoveFilter (audioCaptureFilter scheduleRejected)] ∧
      audioCaptureFilter scheduleRejected ∉
        (setupAudioCaptureFilter scheduleRejected 10 emptyWorld).1.graph) :=
  ⟨(C6_rollback connectRejected 10 emptyWorld).1 (by decide) (by decide) (by decide),
   (C6_rollback scheduleRejected 10 emptyWorld).2.1 (by decide) (by decide) (by decide)
     (by decide),
   (C6_rollback connectRejected 10 emptyWorld).2.2.1 (by decide) (by decide) (by decide),
   (C6_rollback scheduleRejected 10 emptyWorld).2.2.2 (by decide) (by decide) (by decide)
     (by decide)⟩

end AudioVideoRecorder
